import Mathlib

/-!
# Verification of the serverless job-aggregation / metadata-proxy repository

This file is a shallow embedding, in Lean 4, of the request-handling logic of
the repository's serverless endpoints:

* the jobs-snapshot aggregator (`api/jobs-snapshot`, source `part_005`):
  per-source ingestion, role/location/experience scoring, freshness filter,
  URL deduplication, sorting and truncation;
* the all-portals headless scraper (source `part_003`): merge, `dedupeByUrl`,
  `filterByDate`, `sortByLocation`;
* the OMDb metadata proxy (`api/omdb.js`): daily counter, per-minute rate
  limiter, usage/stats branches, search/by-id/poster branches;
* the RSS proxy (source `part_007`): SSRF host gate (`isPrivateHost` plus a
  fixed allowlist).

Modelling conventions:

* Machine integers and JS numbers used as epoch-millisecond timestamps or
  counters are modelled as `Int`/`Nat` (no floating point is involved in any
  verified property; all relevant JS arithmetic is exact integer arithmetic).
* JS strings are Lean `String`s.  A JS "absent or empty" (falsy) string field
  is modelled as `""`; `a || b` on strings is `strOr`.
* `Date` parsing (`new Date(s)`, which is platform-defined) is abstracted by
  the inductive types `JsDate` (for `part_005`'s `parseDateLike` cascade) and
  `PDate` (for `part_003`'s `parseDate` cascade): each constructor stands for
  the class of input strings that the corresponding branch of the source's
  parse cascade recognises, under a fixed clock.
* `Math.random()` draws are an explicit oracle `rng : Nat → String` (the
  `i`-th loop iteration reads `rng i`); the clock is an explicit `now : Int`;
  `toLocaleDateString` is an explicit oracle `locale : Int → String`.
* JS `Array.prototype.sort` with a consistent comparator `cmp` is, per the
  ECMAScript specification, the stable sort by the total preorder
  `cmp a b ≤ 0`; it is modelled by `List.insertionSort` on that relation.
* The JS regular expressions for experience-range extraction are abstracted
  by an oracle `expOf : String → ExpFeatures` giving, for a text, the
  captures of the source's experience patterns; the scoring logic over those
  captures is translated from the source.  All other regex tests in scoring
  (plain alternations and `\b`-bounded alternations) are implemented
  directly (`substrB`, `wbMatch`).
-/

namespace Serverless

/-! ## JS string primitives -/

/-- JS `a || b` for strings (empty string is falsy). -/
def strOr (s d : String) : String := if s = "" then d else s

/-- `s.toLowerCase()` (character-wise; kernel-reducible, unlike
`String.toLower`). -/
def lowerS (s : String) : String := String.mk (s.toList.map Char.toLower)

/-- `s.trim()` (ASCII whitespace at both ends). -/
def trimS (s : String) : String :=
  String.mk
    (((s.toList.dropWhile fun c => c.isWhitespace).reverse.dropWhile
      fun c => c.isWhitespace).reverse)

/-- `s.startsWith(p)` / `indexOf(p) === 0`. -/
def startsWithS (s p : String) : Bool := p.toList.isPrefixOf s.toList

/-- `s.endsWith(p)`. -/
def endsWithS (s p : String) : Bool := p.toList.isSuffixOf s.toList

/-- Substring occurrence at a given index: `p` occurs in `t` at `i`. -/
def substrAt (t p : List Char) (i : Nat) : Bool := p.isPrefixOf (t.drop i)

/-- JS `t.includes(p)`: `p` is a contiguous substring of `t`. -/
def substrL (t p : List Char) : Bool :=
  (List.range (t.length + 1)).any (substrAt t p)

/-- JS `t.includes(p)` on `String`s. -/
def substrB (t p : String) : Bool := substrL t.toList p.toList

/-- JS `\w`: a word character `[A-Za-z0-9_]` (`Char.isAlphanum` is ASCII). -/
def isWordChar (c : Char) : Bool := c.isAlphanum || c == '_'

/-- Match of phrase `p` at index `i` of `t`, with a word boundary (or the
string edge) on both sides — the semantics of `(^|\b)p(\b|$)` for a phrase
that starts and ends with word characters, as all phrases in the source do. -/
def wbMatchAt (t p : List Char) (i : Nat) : Bool :=
  substrAt t p i
    && (i == 0 || !(isWordChar (t.getD (i - 1) ' ')))
    && (i + p.length == t.length || !(isWordChar (t.getD (i + p.length) ' ')))

/-- `(^|\b)p(\b|$)` matches somewhere in `t`. -/
def wbMatchL (t p : List Char) : Bool :=
  (List.range (t.length + 1)).any (wbMatchAt t p)

/-- `(^|\b)(p₁|p₂|…)(\b|$)` on `String`s (the alternation regexes of
`locationRank` and the generic tier-3 check of `roleTierRank`). -/
def wbAny (t : String) (ps : List String) : Bool :=
  ps.any fun p => wbMatchL t.toList p.toList

/-- JS `s.replace(/[^a-zA-Z0-9]/g, '_')`. -/
def sanitizeId (s : String) : String :=
  String.mk (s.toList.map fun c => if c.isAlphanum then c else '_')

/-! ## Dates

`part_005`'s `parseDateLike(input)`: falsy input → `null`; a string `new
Date` parses → that date; a string matching `(\d+)\s*(unit)s?\s*ago` → now
minus the corresponding span; otherwise `null`.  Each `JsDate` constructor
stands for the class of strings taking the corresponding branch. -/

inductive AgoUnit | minute | hour | day | week | month | year
deriving DecidableEq

/-- Milliseconds per unit, as in `parseDateLike`'s arithmetic. -/
def agoMs : AgoUnit → Int
  | .minute => 60 * 1000
  | .hour => 60 * 60 * 1000
  | .day => 24 * 60 * 60 * 1000
  | .week => 7 * 24 * 60 * 60 * 1000
  | .month => 30 * 24 * 60 * 60 * 1000
  | .year => 365 * 24 * 60 * 60 * 1000

/-- A JS date-like string value, classified by `part_005.parseDateLike`'s
cascade under a fixed clock. -/
inductive JsDate
  /-- Falsy input (`undefined`, `null`, `''`, or whitespace-only). -/
  | missing
  /-- A non-empty string that `new Date(s)` parses to epoch-ms `t`. -/
  | abs (t : Int)
  /-- A non-empty string `"n unit(s) ago"` that `new Date` does not parse. -/
  | ago (n : Nat) (u : AgoUnit)
  /-- Any other non-empty string (truthy but unparseable). -/
  | bad
deriving DecidableEq

/-- `part_005.parseDateLike`, returning epoch milliseconds. -/
def parseDateLike (now : Int) : JsDate → Option Int
  | .missing => none
  | .abs t => some t
  | .ago n u => some (now - n * agoMs u)
  | .bad => none

/-- JS `a || b` on date-like values (only absent/empty is falsy). -/
def jsdOr (a b : JsDate) : JsDate :=
  match a with
  | .missing => b
  | x => x

/-- One day in milliseconds. -/
def dayMs : Int := 24 * 60 * 60 * 1000

/-! ## `part_005`: scoring -/

/-- `ROLE_TIER_1`. -/
def ROLE_TIER_1 : List String :=
  ["data analyst", "senior data analyst", "senior analyst", "business analyst",
   "product analyst", "decision scientist", "bi developer",
   "business intelligence developer", "analytics engineer", "bi analyst",
   "analytics analyst", "financial analyst", "marketing analyst",
   "operations analyst"]

/-- `ROLE_TIER_2`. -/
def ROLE_TIER_2 : List String :=
  ["junior data scientist", "associate data scientist", "data scientist",
   "ml engineer", "machine learning engineer"]

/-- `ROLE_TIER_3_EXCLUDE`. -/
def ROLE_TIER_3_EXCLUDE : List String :=
  ["data engineer", "senior data engineer", "big data engineer",
   "cloud data engineer", "etl engineer", "data infrastructure engineer"]

/-- `containsAny(text, keywords)`: lowercase, then any keyword a substring. -/
def containsAny (text : String) (keywords : List String) : Bool :=
  keywords.any fun k => substrB (lowerS text) k

/-- `includesAnyPhrase(text, phrases)`: the first non-empty phrase that is a
substring of the lowercased text, else `''`. -/
def includesAnyPhrase (text : String) : List String → String
  | [] => ""
  | p :: rest =>
    if p != "" && substrB (lowerS text) p then p else includesAnyPhrase text rest

/-- `locationRank(location)`: 150 for remote-India, 120 for remote, 80 for
India on-site, else 0.  The remote/India tests are the source's
`\b`-bounded alternation regexes. -/
def locationRank (location : String) : Int :=
  let loc := lowerS location
  let isRemote := wbAny loc ["remote", "work from home", "wfh", "anywhere", "distributed"]
  let indiaCity := wbAny loc ["pune", "mumbai", "thane", "navi mumbai", "hyderabad",
    "bangalore", "bengaluru", "chennai", "delhi", "delhi-ncr", "gurgaon", "noida"]
  let india := wbAny loc ["india", "in"]
  if isRemote && (india || indiaCity) then 150
  else if isRemote then 120
  else if indiaCity || india then 80
  else 0

/-- Result of `roleTierRank`. -/
structure RoleRank where
  tier : String
  score : Int
  hit : String
deriving DecidableEq

/-- `roleTierRank(title, description)`. -/
def roleTierRank (title description : String) : RoleRank :=
  let t := lowerS title
  let desc := lowerS description
  let fullText := t ++ " " ++ desc
  let excludeHit := includesAnyPhrase fullText ROLE_TIER_3_EXCLUDE
  if excludeHit != "" then
    -- `/(analyst|analytics|bi|business intelligence)/` has no `\b`: substring
    let hasAnalyst := ["analyst", "analytics", "bi", "business intelligence"].any
      fun p => substrB fullText p
    if !hasAnalyst then ⟨"excluded", -100, excludeHit⟩
    else ⟨"tier3", 30, excludeHit⟩
  else
    let hit1 := includesAnyPhrase t ROLE_TIER_1
    if hit1 != "" then ⟨"tier1", 200, hit1⟩
    else
      let hit2 := includesAnyPhrase t ROLE_TIER_2
      if hit2 != "" then ⟨"tier2", 120, hit2⟩
      else if wbAny t ["analyst", "analytics", "bi", "business intelligence"] then
        ⟨"tier3", 60, "analytics"⟩
      else ⟨"other", 0, ""⟩

/-- Abstraction of the JS experience-regex layer of
`experienceLevelMatch(title, description)` for one lowercased full text:
the `(min, max)` captures of the four `expPatterns` that match, in pattern
order (the captured groups are `\d+`, so `parseInt` never yields `NaN`),
and the Boolean outcomes of the single-number, mid-level and `2+/3+`
pattern tests. -/
structure ExpFeatures where
  ranges : List (Nat × Nat)
  singleHit : Bool
  midLevel : Bool
  plusPat : Bool
deriving DecidableEq

/-- The trivial feature bundle: a text in which none of the experience
patterns match. -/
def noExp : ExpFeatures := ⟨[], false, false, false⟩

/-- The range-pattern loop of `experienceLevelMatch`: first matched range
whose bounds pass one of the overlap conditions decides the score. -/
def expFromRanges : List (Nat × Nat) → Option Int
  | [] => none
  | (mn, mx) :: rest =>
    if (mn ≤ 3 ∧ 2 ≤ mx) ∨ (mn = 2 ∧ mx = 3) ∨ (mn ≤ 2 ∧ 3 ≤ mx) then some 50
    else if mn ≤ 2 ∧ 3 ≤ mx then some 30
    else expFromRanges rest

/-- Result of `experienceLevelMatch` (every return path has `match: true`). -/
structure ExpMatch where
  score : Int
deriving DecidableEq

/-- `experienceLevelMatch` over the feature bundle of the full text. -/
def experienceLevelMatch (f : ExpFeatures) : ExpMatch :=
  match expFromRanges f.ranges with
  | some s => ⟨s⟩
  | none =>
    if f.singleHit then ⟨40⟩
    else if f.midLevel then ⟨25⟩
    else if f.plusPat then ⟨35⟩
    else ⟨0⟩

end Serverless

namespace Serverless

/-! ## `part_005`: records and normalization -/

/-- Environment of one aggregator request: the frozen clock, the
locale-rendering oracle for `toLocaleDateString`, and the
experience-regex oracle. -/
structure Env where
  now : Int
  locale : Int → String
  expOf : String → ExpFeatures

/-- `experienceLevelMatch(title, description)`: the full text is lowercased
`title + ' ' + description`, whose regex features the oracle supplies. -/
def expMatchOf (env : Env) (title description : String) : ExpMatch :=
  experienceLevelMatch (env.expOf (lowerS (title ++ " " ++ description)))

/-- Raw argument of `normalizeJob` (string fields use `""` for JS falsy;
`rank` is `some` exactly when `_rank` is a number). -/
structure RawJob where
  id : String
  title : String
  company : String
  location : String
  url : String
  description : String
  source : String
  date : JsDate
  tags : Option (List String)
  rank : Option Int
  roleTier : String
deriving DecidableEq

/-- A normalized listing (the output shape of `normalizeJob`). -/
structure Job where
  id : String
  title : String
  company : String
  location : String
  url : String
  description : String
  source : String
  date : JsDate
  dateFormatted : String
  postedAgo : String
  tags : List String
  rank : Int
  roleTier : String
deriving DecidableEq

/-- `formatDateDisplay(dateInput)`: `(dateFormatted, postedAgo)`.
`Math.floor` on the (possibly negative) millisecond difference is `Int.fdiv`;
the `en-GB` locale rendering is the `locale` oracle. -/
def formatDateDisplay (env : Env) (d : JsDate) : String × String :=
  match parseDateLike env.now d with
  | none => ("", "")
  | some t =>
    let ms := env.now - t
    let sec := Int.fdiv ms 1000
    let min := Int.fdiv sec 60
    let hr := Int.fdiv min 60
    let day := Int.fdiv hr 24
    let week := Int.fdiv day 7
    let month := Int.fdiv day 30
    let year := Int.fdiv day 365
    let postedAgo :=
      if sec < 60 then "just now"
      else if min < 60 then
        if min = 1 then "1 minute ago" else toString min ++ " minutes ago"
      else if hr < 24 then
        if hr = 1 then "1 hour ago" else toString hr ++ " hours ago"
      else if day < 7 then
        if day = 1 then "1 day ago" else toString day ++ " days ago"
      else if week < 4 then
        if week = 1 then "1 week ago" else toString week ++ " weeks ago"
      else if month < 12 then
        if month = 1 then "1 month ago" else toString month ++ " months ago"
      else if year = 1 then "1 year ago" else toString year ++ " years ago"
    (env.locale t, postedAgo)

/-- `normalizeJob(j)`.  `rand` is the `Math.random().toString(36).slice(2)`
draw the `id` fallback would consume (every call site passes an `id` with a
non-empty literal prefix, so the fallback is dead; see
`normalizeJob_rand_irrel`). -/
def normalizeJob (env : Env) (rand : String) (j : RawJob) : Job :=
  let rawDate := jsdOr j.date (JsDate.abs env.now)
  let fd := formatDateDisplay env rawDate
  { id := strOr j.id ("job_" ++ rand)
    title := strOr j.title "Untitled"
    company := strOr j.company "Unknown"
    location := strOr j.location "Remote"
    url := strOr j.url "#"
    description := j.description
    source := strOr j.source "other"
    date := rawDate
    dateFormatted := fd.1
    postedAgo := fd.2
    tags := j.tags.getD []
    rank := j.rank.getD 0
    roleTier := j.roleTier }

/-! ## `part_005`: per-source payload shapes and ingestion loops

Each fetched payload item is `Option X`: `none` models a list entry that is
not a usable object (`!it`, or for RemoteOK `typeof it !== 'object'`).
String fields use `""` for JS falsy values. -/

/-- A RemoteOK JSON API item.  `id` is the string form JS produces in
`'remoteok_' + it.id` (absent `id` concatenates as `"undefined"`). -/
structure ROkItem where
  id : String
  position : String
  company : String
  location : String
  url : String
  description : String
  tags : Option (List String)
  date : JsDate
deriving DecidableEq

/-- A Remotive API item.  `id` is the `toString()` form; `""` models a falsy
`id` (absent, or the number `0`), in which case the code draws
`Math.random()`. -/
structure RemotiveItem where
  id : String
  title : String
  company_name : String
  candidate_required_location : String
  location : String
  description_plain : String
  description : String
  category : String
  tags : Option (List String)
  publication_date : JsDate
  created_at : JsDate
  url : String
deriving DecidableEq

/-- An item returned by `fetchRssDirect`. -/
structure RssIt where
  title : String
  link : String
  description : String
  content : String
  pubDate : JsDate
deriving DecidableEq

/-- A WorkingNomads proxy item. -/
structure WnItem where
  id : String
  title : String
  company : String
  location : String
  url : String
  description : String
  date : JsDate
deriving DecidableEq

/-- An item from a headless scraper payload or the KV cache
(`weworkremotely`, `multi`, `indeed`, `linkedin`, cached). -/
structure SrcItem where
  title : String
  company : String
  location : String
  url : String
  description : String
  source : String
  date : JsDate
deriving DecidableEq

/-- The aggregator's focused keyword list. -/
def snapshotKeywords : List String :=
  ["data analyst", "analyst", "business analyst", "product analyst",
   "decision scientist", "bi", "business intelligence", "analytics",
   "analytics engineer", "data scientist", "machine learning", "ml engineer",
   "data", "remote"]

/-- `Array.isArray(tags) ? tags.join(' ') : ''`. -/
def joinTags : Option (List String) → String
  | some l => String.intercalate " " l
  | none => ""

/-- RemoteOK ingestion loop (`part_005`, section 1). -/
def ingestROk (env : Env) (rng : Nat → String) : Nat → List (Option ROkItem) → List Job
  | _, [] => []
  | i, none :: rest => ingestROk env rng (i + 1) rest
  | i, some it :: rest =>
    if it.position = "" ∨ it.url = "" then ingestROk env rng (i + 1) rest
    else
      let full := it.position ++ " " ++ it.description ++ " " ++ joinTags it.tags
      if !containsAny full snapshotKeywords then ingestROk env rng (i + 1) rest
      else
        let role := roleTierRank it.position it.description
        if role.score < 0 then ingestROk env rng (i + 1) rest
        else
          let exp := expMatchOf env it.position it.description
          let locScore := locationRank (strOr it.location "Remote")
          normalizeJob env (rng i)
            { id := "remoteok_" ++ it.id
              title := it.position
              company := strOr it.company "Unknown"
              location := strOr it.location "Remote"
              url := if substrAt it.url.toList "http".toList 0 then it.url
                     else "https://remoteok.com" ++ it.url
              description := it.description
              source := "remoteok"
              date := jsdOr it.date (JsDate.abs env.now)
              tags := some (it.tags.getD [])
              rank := some (role.score + locScore + exp.score)
              roleTier := role.tier } :: ingestROk env rng (i + 1) rest

/-- Remotive ingestion loop (`part_005`, section 2); the caller caps the
list at 80 items. -/
def ingestRemotive (env : Env) (rng : Nat → String) : Nat → List (Option RemotiveItem) → List Job
  | _, [] => []
  | i, none :: rest => ingestRemotive env rng (i + 1) rest
  | i, some it :: rest =>
    if it.title = "" ∨ it.url = "" then ingestRemotive env rng (i + 1) rest
    else
      let desc := strOr it.description_plain it.description
      let full := it.title ++ " " ++ desc ++ " " ++ joinTags it.tags
      if !containsAny full snapshotKeywords then ingestRemotive env rng (i + 1) rest
      else
        let role := roleTierRank it.title desc
        if role.score < 0 then ingestRemotive env rng (i + 1) rest
        else
          let exp := expMatchOf env it.title desc
          let locScore := locationRank (strOr it.candidate_required_location
            (strOr it.location "Remote"))
          normalizeJob env (rng i)
            { id := "remotive_" ++ sanitizeId (strOr it.id (rng i))
              title := it.title
              company := strOr it.company_name "Unknown"
              location := strOr it.candidate_required_location "Remote"
              url := it.url
              description := desc
              source := "remotive"
              date := jsdOr it.publication_date (jsdOr it.created_at (JsDate.abs env.now))
              tags := some ((it.tags.getD []) ++
                (if it.category ≠ "" then [it.category] else []))
              rank := some (role.score + locScore + exp.score)
              roleTier := role.tier } :: ingestRemotive env rng (i + 1) rest

/-- One RSS feed's item loop (`part_005`, section 3). -/
def ingestRssItems (env : Env) (rng : Nat → String) (src : String) :
    Nat → List (Option RssIt) → List Job
  | _, [] => []
  | i, none :: rest => ingestRssItems env rng src (i + 1) rest
  | i, some it :: rest =>
    if it.title = "" ∨ it.link = "" then ingestRssItems env rng src (i + 1) rest
    else
      let full := it.title ++ " " ++ it.description ++ " " ++ it.content
      if !containsAny full snapshotKeywords then ingestRssItems env rng src (i + 1) rest
      else
        let role := roleTierRank it.title (strOr it.description it.content)
        if role.score < 0 then ingestRssItems env rng src (i + 1) rest
        else
          let exp := expMatchOf env it.title (strOr it.description it.content)
          let locScore := locationRank "Remote"
          normalizeJob env (rng i)
            { id := src ++ "_rss_" ++ sanitizeId (strOr it.link (rng i))
              title := trimS it.title
              company := "Unknown"
              location := "Remote"
              url := it.link
              description := it.description
              source := src
              date := jsdOr it.pubDate (JsDate.abs env.now)
              tags := some ["rss"]
              rank := some (role.score + locScore + exp.score)
              roleTier := role.tier } :: ingestRssItems env rng src (i + 1) rest

/-- All RSS feed results in order (`Promise.allSettled` preserves the feed
order; a rejected or failed feed contributes an empty item list). -/
def ingestRssAll (env : Env) (rng : Nat → String) :
    List (String × List (Option RssIt)) → List Job
  | [] => []
  | (src, items) :: rest =>
    ingestRssItems env rng src 0 items ++ ingestRssAll env rng rest

/-- WorkingNomads ingestion loop (`part_005`, section 4). -/
def ingestWn (env : Env) (rng : Nat → String) : Nat → List (Option WnItem) → List Job
  | _, [] => []
  | i, none :: rest => ingestWn env rng (i + 1) rest
  | i, some it :: rest =>
    if it.title = "" ∨ it.url = "" then ingestWn env rng (i + 1) rest
    else
      let full := it.title ++ " " ++ it.description
      if !containsAny full snapshotKeywords then ingestWn env rng (i + 1) rest
      else
        let role := roleTierRank it.title it.description
        if role.score < 0 then ingestWn env rng (i + 1) rest
        else
          let exp := expMatchOf env it.title it.description
          let locScore := locationRank (strOr it.location "Remote")
          normalizeJob env (rng i)
            { id := "workingnomads_" ++ sanitizeId (strOr it.id it.url)
              title := it.title
              company := strOr it.company "Unknown"
              location := strOr it.location "Remote"
              url := it.url
              description := it.description
              source := "workingnomads"
              date := jsdOr it.date (JsDate.abs env.now)
              tags := some ["api"]
              rank := some (role.score + locScore + exp.score)
              roleTier := role.tier } :: ingestWn env rng (i + 1) rest

end Serverless

namespace Serverless

/-- WeWorkRemotely headless ingestion (`part_005`, section 5): fixed
location score 120, `date: nowIso()`. -/
def ingestWwr (env : Env) (rng : Nat → String) : Nat → List (Option SrcItem) → List Job
  | _, [] => []
  | i, none :: rest => ingestWwr env rng (i + 1) rest
  | i, some it :: rest =>
    if it.title = "" ∨ it.url = "" then ingestWwr env rng (i + 1) rest
    else
      let full := it.title ++ " " ++ it.description
      if !containsAny full snapshotKeywords then ingestWwr env rng (i + 1) rest
      else
        let role := roleTierRank it.title it.description
        if role.score < 0 then ingestWwr env rng (i + 1) rest
        else
          let exp := expMatchOf env it.title it.description
          normalizeJob env (rng i)
            { id := "weworkremotely_headless_" ++ sanitizeId (strOr it.url (rng i))
              title := it.title
              company := "Unknown"
              location := "Remote"
              url := it.url
              description := it.description
              source := "weworkremotely_headless"
              date := JsDate.abs env.now
              tags := some ["headless"]
              rank := some (role.score + 120 + exp.score)
              roleTier := role.tier } :: ingestWwr env rng (i + 1) rest

/-- Multi-site headless ingestion (`part_005`, section 6): default location
`'India'`, source taken from the item. -/
def ingestMulti (env : Env) (rng : Nat → String) : Nat → List (Option SrcItem) → List Job
  | _, [] => []
  | i, none :: rest => ingestMulti env rng (i + 1) rest
  | i, some it :: rest =>
    if it.title = "" ∨ it.url = "" then ingestMulti env rng (i + 1) rest
    else
      let full := it.title ++ " " ++ it.company ++ " " ++ it.location ++ " " ++ it.description
      if !containsAny full snapshotKeywords then ingestMulti env rng (i + 1) rest
      else
        let role := roleTierRank it.title it.description
        if role.score < 0 then ingestMulti env rng (i + 1) rest
        else
          let exp := expMatchOf env it.title it.description
          let locScore := locationRank (strOr it.location "India")
          normalizeJob env (rng i)
            { id := strOr it.source "headless" ++ "_" ++ sanitizeId (strOr it.url (rng i))
              title := it.title
              company := strOr it.company "Unknown"
              location := strOr it.location "India"
              url := it.url
              description := it.description
              source := strOr it.source "headless_multi"
              date := jsdOr it.date (JsDate.abs env.now)
              tags := some ["headless"]
              rank := some (role.score + locScore + exp.score)
              roleTier := role.tier } :: ingestMulti env rng (i + 1) rest

/-- Indeed headless ingestion (`part_005`, section 6b): `date: nowIso()`. -/
def ingestIndeed (env : Env) (rng : Nat → String) : Nat → List (Option SrcItem) → List Job
  | _, [] => []
  | i, none :: rest => ingestIndeed env rng (i + 1) rest
  | i, some it :: rest =>
    if it.title = "" ∨ it.url = "" then ingestIndeed env rng (i + 1) rest
    else
      let full := it.title ++ " " ++ it.company ++ " " ++ it.location ++ " " ++ it.description
      if !containsAny full snapshotKeywords then ingestIndeed env rng (i + 1) rest
      else
        let role := roleTierRank it.title it.description
        if role.score < 0 then ingestIndeed env rng (i + 1) rest
        else
          let exp := expMatchOf env it.title it.description
          let locScore := locationRank (strOr it.location "Remote")
          normalizeJob env (rng i)
            { id := "indeed_headless_" ++ sanitizeId (strOr it.url (rng i))
              title := it.title
              company := strOr it.company "Unknown"
              location := strOr it.location "Remote"
              url := it.url
              description := it.description
              source := "indeed_headless"
              date := JsDate.abs env.now
              tags := some ["headless"]
              rank := some (role.score + locScore + exp.score)
              roleTier := role.tier } :: ingestIndeed env rng (i + 1) rest

/-- LinkedIn headless ingestion (`part_005`, section 6c). -/
def ingestLinkedin (env : Env) (rng : Nat → String) : Nat → List (Option SrcItem) → List Job
  | _, [] => []
  | i, none :: rest => ingestLinkedin env rng (i + 1) rest
  | i, some it :: rest =>
    if it.title = "" ∨ it.url = "" then ingestLinkedin env rng (i + 1) rest
    else
      let full := it.title ++ " " ++ it.company ++ " " ++ it.location ++ " " ++ it.description
      if !containsAny full snapshotKeywords then ingestLinkedin env rng (i + 1) rest
      else
        let role := roleTierRank it.title it.description
        if role.score < 0 then ingestLinkedin env rng (i + 1) rest
        else
          let exp := expMatchOf env it.title it.description
          let locScore := locationRank (strOr it.location "Remote")
          normalizeJob env (rng i)
            { id := "linkedin_headless_" ++ sanitizeId (strOr it.url (rng i))
              title := it.title
              company := strOr it.company "Unknown"
              location := strOr it.location "Remote"
              url := it.url
              description := it.description
              source := "linkedin_headless"
              date := jsdOr it.date (JsDate.abs env.now)
              tags := some ["headless"]
              rank := some (role.score + locScore + exp.score)
              roleTier := role.tier } :: ingestLinkedin env rng (i + 1) rest

/-- KV-cached headless ingestion (`part_005`, section 7). -/
def ingestCached (env : Env) (rng : Nat → String) : Nat → List (Option SrcItem) → List Job
  | _, [] => []
  | i, none :: rest => ingestCached env rng (i + 1) rest
  | i, some it :: rest =>
    if it.title = "" ∨ it.url = "" then ingestCached env rng (i + 1) rest
    else
      let full := it.title ++ " " ++ it.company ++ " " ++ it.location ++ " " ++ it.description
      if !containsAny full snapshotKeywords then ingestCached env rng (i + 1) rest
      else
        let role := roleTierRank it.title it.description
        if role.score < 0 then ingestCached env rng (i + 1) rest
        else
          let exp := expMatchOf env it.title it.description
          let locScore := locationRank (strOr it.location "India")
          normalizeJob env (rng i)
            { id := strOr it.source "cached" ++ "_" ++ sanitizeId (strOr it.url (rng i))
              title := it.title
              company := strOr it.company "Unknown"
              location := strOr it.location "India"
              url := it.url
              description := it.description
              source := strOr it.source "cached_headless"
              date := jsdOr it.date (JsDate.abs env.now)
              tags := some ["cached"]
              rank := some (role.score + locScore + exp.score)
              roleTier := role.tier } :: ingestCached env rng (i + 1) rest

/-! ## `part_005`: the pipeline -/

/-- The fetch results one snapshot request processes, in source order.
`none` for an optional payload models a failed/absent/ill-shaped fetch;
`headlessEnabled` is `ENABLE_HEADLESS === '1' && baseUrl`. -/
structure Part5Inputs where
  remoteOkList : List (Option ROkItem)
  remotiveJobs : Option (List (Option RemotiveItem))
  rss : List (String × List (Option RssIt))
  wn : Option (List (Option WnItem))
  headlessEnabled : Bool
  wwr : Option (List (Option SrcItem))
  multi : Option (List (Option SrcItem))
  indeed : Option (List (Option SrcItem))
  linkedin : Option (List (Option SrcItem))
  cachedHeadless : List (Option SrcItem)
deriving DecidableEq

/-- All `jobs.push` calls of one request, in program order. -/
def buildJobs (env : Env) (rng : Nat → String) (inp : Part5Inputs) : List Job :=
  ingestROk env rng 0 inp.remoteOkList
    ++ ingestRemotive env rng 0 ((inp.remotiveJobs.getD []).take 80)
    ++ ingestRssAll env rng inp.rss
    ++ ingestWn env rng 0 (inp.wn.getD [])
    ++ (if inp.headlessEnabled then
          ingestWwr env rng 0 (inp.wwr.getD [])
            ++ ingestMulti env rng 0 (inp.multi.getD [])
            ++ ingestIndeed env rng 0 (inp.indeed.getD [])
            ++ ingestLinkedin env rng 0 (inp.linkedin.getD [])
        else [])
    ++ ingestCached env rng 0 inp.cachedHeadless

/-- `clamp(n, min, max) = Math.max(min, Math.min(max, n))`. -/
def clampI (n lo hi : Int) : Int := max lo (min hi n)

/-- `parseInt(String(x), 10) || d`: `none` models an absent parameter or a
`NaN` parse; a parse of `0` is falsy and also falls back to the default. -/
def intOr (p : Option Int) (d : Int) : Int :=
  match p with
  | none => d
  | some n => if n = 0 then d else n

/-- Query parameters of a snapshot request (`parseInt` outcomes for the
numeric ones; `""` models an absent/falsy `q`). -/
structure Part5Query where
  q : String
  days : Option Int
  limit : Option Int
deriving DecidableEq

/-- The negative-rank double-check filter (`j._rank < 0 → drop`). -/
def rankFilter (jobs : List Job) : List Job :=
  jobs.filter fun j => !decide (j.rank < 0)

/-- The freshness filter: drop when the date does not parse, keep when
`now - dt.getTime() <= maxAgeMs`. -/
def freshFilter (env : Env) (maxAgeMs : Int) (jobs : List Job) : List Job :=
  jobs.filter fun j =>
    match parseDateLike env.now j.date with
    | none => false
    | some t => decide (env.now - t ≤ maxAgeMs)

/-- The URL dedup filter with its `seen` set: a job is dropped when its
`url` is falsy or already seen. -/
def dedupe5Aux (seen : List String) : List Job → List Job
  | [] => []
  | j :: rest =>
    if j.url = "" ∨ j.url ∈ seen then dedupe5Aux seen rest
    else j :: dedupe5Aux (j.url :: seen) rest

/-- `jobs.filter` dedup with an initially empty `seen` set. -/
def dedupe5 (jobs : List Job) : List Job := dedupe5Aux [] jobs

/-- The parsed time of a job's date, with the comparator's `0` fallback for
an unparseable date. -/
def jobTime (now : Int) (j : Job) : Int := (parseDateLike now j.date).getD 0

/-- The sort comparator of `part_005` as the relation `cmp a b ≤ 0`:
descending `_rank` (always a number in a normalized job), ties by
descending parsed date. -/
def jobRel (now : Int) (a b : Job) : Prop :=
  b.rank < a.rank ∨ (b.rank = a.rank ∧ jobTime now b ≤ jobTime now a)

instance (now : Int) : DecidableRel (jobRel now) := fun a b => by
  unfold jobRel; exact inferInstance

/-- The response of the snapshot handler (CORS/cache headers and the
`_errors` diagnostics array are not modelled). -/
structure SnapshotResponse where
  ok : Bool
  query : String
  days : Int
  limit : Int
  count : Nat
  sources : List String
  sourceCounts : List (String × Nat)
  jobs : List Job
deriving DecidableEq

/-- First-occurrence dedup of source names (`Array.from(new Set(xs))`). -/
def dedupFirst (seen : List String) : List String → List String
  | [] => []
  | s :: rest =>
    if s ∈ seen then dedupFirst seen rest
    else s :: dedupFirst (s :: seen) rest

/-- JS object counter increment preserving first-occurrence key order. -/
def bumpCount : List (String × Nat) → String → List (String × Nat)
  | [], s => [(s, 1)]
  | (k, n) :: rest, s =>
    if k = s then (k, n + 1) :: rest else (k, n) :: bumpCount rest s

/-- `sourceCounts`. -/
def sourceCountsOf (jobs : List Job) : List (String × Nat) :=
  (jobs.map Job.source).foldl bumpCount []

/-- The post-merge pipeline: negative-rank filter, freshness filter, URL
dedup, sort, truncation. -/
def snapshotJobs (env : Env) (rng : Nat → String) (query : Part5Query)
    (inp : Part5Inputs) : List Job :=
  let days := clampI (intOr query.days 7) 1 30
  let limit := clampI (intOr query.limit 180) 10 400
  let maxAgeMs := days * dayMs
  let js := dedupe5 (freshFilter env maxAgeMs (rankFilter (buildJobs env rng inp)))
  (js.insertionSort (jobRel env.now)).take limit.toNat

/-- The full 200-response of the snapshot handler. -/
def snapshotResponse (env : Env) (rng : Nat → String) (query : Part5Query)
    (inp : Part5Inputs) : SnapshotResponse :=
  let q := if query.q = "" then "data analyst" else trimS query.q
  let days := clampI (intOr query.days 7) 1 30
  let limit := clampI (intOr query.limit 180) 10 400
  let jobs := snapshotJobs env rng query inp
  { ok := true
    query := q
    days := days
    limit := limit
    count := jobs.length
    sources := (dedupFirst [] (jobs.map Job.source)).insertionSort (· ≤ ·)
    sourceCounts := sourceCountsOf jobs
    jobs := jobs }

end Serverless

namespace Serverless

/-! ## `part_003`: the all-portals scraper's aggregation stage

Date strings here are classified by `part_003.parseDate`'s own cascade
(`new Date`, then `today`/`just now`, `yesterday`, `"N days"`). -/

/-- A date-like string value as classified by `part_003.parseDate`. -/
inductive PDate
  /-- Falsy (`undefined` or `''`). -/
  | missing
  /-- A string `new Date(s)` parses to epoch-ms `t`. -/
  | abs (t : Int)
  /-- An unparseable string containing `today` or `just now`. -/
  | todayish
  /-- An unparseable string containing `yesterday`. -/
  | yesterday
  /-- An unparseable string containing `"<n> day(s)"` (e.g. `"3 days ago"`). -/
  | nDays (n : Nat)
  /-- Any other truthy string (e.g. `"3 hours ago"`). -/
  | bad
deriving DecidableEq

/-- `part_003.parseDate`. -/
def parseDate (now : Int) : PDate → Option Int
  | .missing => none
  | .abs t => some t
  | .todayish => some now
  | .yesterday => some (now - dayMs)
  | .nDays n => some (now - n * dayMs)
  | .bad => none

/-- JS `a || b` on `PDate` values. -/
def pdOr (a b : PDate) : PDate :=
  match a with
  | .missing => b
  | x => x

/-- A scraped job record as consumed by the aggregation stage. -/
structure PJob where
  title : String
  company : String
  location : String
  url : String
  description : String
  source : String
  date : PDate
  postedDate : PDate
deriving DecidableEq

/-- One portal's scrape result. -/
structure SourceResult where
  source : String
  jobs : List PJob
deriving DecidableEq

/-- The merge loop: every result's jobs, in result order, with the `source`
field overridden by the result's source. -/
def mergeResults : List SourceResult → List PJob
  | [] => []
  | r :: rest => r.jobs.map (fun j => { j with source := r.source }) ++ mergeResults rest

/-- `filterByDate(jobs, maxDays)`: a falsy `maxDays` (absent, `NaN` or `0`)
keeps everything; otherwise a job is kept when its date does not parse, or
parses to a time at or after the cutoff. -/
def filterByDate (now : Int) (maxDays : Option Int) (jobs : List PJob) : List PJob :=
  match maxDays with
  | none => jobs
  | some d =>
    if d = 0 then jobs
    else
      let cutoff := now - d * dayMs
      jobs.filter fun job =>
        match parseDate now (pdOr job.date job.postedDate) with
        | none => true
        | some t => decide (cutoff ≤ t)

/-- The remote test of `sortByLocation`
(`/remote|work from home|wfh|anywhere|distributed/`, no word boundaries). -/
def pRemote (loc : String) : Bool :=
  ["remote", "work from home", "wfh", "anywhere", "distributed"].any fun p =>
    substrB (lowerS loc) p

/-- `sortByLocation`'s comparator as the relation `cmp a b ≤ 0`:
remote-location jobs sort before non-remote ones, everything else ties. -/
def pLocRel (a b : PJob) : Prop :=
  pRemote a.location = true ∨ pRemote b.location = false

instance : DecidableRel pLocRel := fun a b => by
  unfold pLocRel; exact inferInstance

/-- `sortByLocation`. -/
def sortByLocation (jobs : List PJob) : List PJob :=
  jobs.insertionSort pLocRel

/-- `dedupeByUrl`'s filter with its `seen` set: a job is dropped when its
trimmed url is empty or already seen. -/
def dedupeByUrlAux (seen : List String) : List PJob → List PJob
  | [] => []
  | j :: rest =>
    let u := trimS j.url
    if u = "" ∨ u ∈ seen then dedupeByUrlAux seen rest
    else j :: dedupeByUrlAux (u :: seen) rest

/-- `dedupeByUrl`. -/
def dedupeByUrl (jobs : List PJob) : List PJob := dedupeByUrlAux [] jobs

/-- The aggregation pipeline of `scrapeAllPortals`: merge, dedupe by URL,
filter by date, sort by location. -/
def allPortalsJobs (now : Int) (maxDays : Option Int) (results : List SourceResult) :
    List PJob :=
  sortByLocation (filterByDate now maxDays (dedupeByUrl (mergeResults results)))

/-- The fresh-scrape (non-cached) result of `scrapeAllPortals` (the
`scrapedAt`/`results` diagnostic fields are not modelled). -/
structure AllPortalsResult where
  ok : Bool
  count : Nat
  jobs : List PJob
  sources : List String
deriving DecidableEq

/-- The fresh-scrape 200-response body of the all-portals handler. -/
def allPortalsResult (now : Int) (maxDays : Option Int) (results : List SourceResult) :
    AllPortalsResult :=
  let jobs := allPortalsJobs now maxDays results
  { ok := true
    count := jobs.length
    jobs := jobs
    sources := results.map SourceResult.source }

/-! ## `part_007`: the RSS proxy's SSRF gate -/

/-- `ALLOWED_HOSTS`. -/
def ALLOWED_HOSTS : List String :=
  ["remoteok.io", "www.remoteok.io", "remoteok.com", "www.remoteok.com",
   "weworkremotely.com", "www.weworkremotely.com",
   "remotive.com", "www.remotive.com",
   "jobscollider.com", "www.jobscollider.com",
   "stackoverflow.com", "www.stackoverflow.com",
   "wellfound.com", "www.wellfound.com",
   "indeed.com", "www.indeed.com", "rss.indeed.com",
   "remote.co", "www.remote.co",
   "jobspresso.co", "www.jobspresso.co",
   "himalayas.app", "www.himalayas.app",
   "authenticjobs.com", "www.authenticjobs.com",
   "rssjobs.app", "www.rssjobs.app",
   "towardsdatascience.com", "www.towardsdatascience.com",
   "medium.com", "www.medium.com"]

/-- `h.split('.')` as character-list segments (structural recursion). -/
def splitDotAux (acc : List Char) : List Char → List (List Char)
  | [] => [acc.reverse]
  | c :: rest =>
    if c = '.' then acc.reverse :: splitDotAux [] rest
    else splitDotAux (c :: acc) rest

/-- The dot-separated groups of a hostname. -/
def splitDot (h : String) : List (List Char) := splitDotAux [] h.toList

/-- `parseInt` of an all-digit group. -/
def digitsToNat (l : List Char) : Nat :=
  l.foldl (fun n c => n * 10 + (c.toNat - 48)) 0

/-- `^\d{1,3}(\.\d{1,3}){3}$`: four dot-separated groups of 1–3 digits. -/
def ipv4Quad (h : String) : Bool :=
  let parts := splitDot h
  parts.length == 4 && parts.all fun p =>
    decide (1 ≤ p.length) && decide (p.length ≤ 3) && p.all Char.isDigit

/-- `isPrivateHost(hostname)`.  Inside the dotted-quad branch the
`isNaN`/negative guard is vacuous (the groups are digits), leaving the
`> 255` check and the private ranges. -/
def isPrivateHost (hostname : String) : Bool :=
  if hostname = "" then true
  else
    let h := lowerS hostname
    if h = "localhost" ∨ endsWithS h ".local" then true
    else if ipv4Quad h then
      let parts := (splitDot h).map digitsToNat
      if parts.any (fun n => 255 < n) then true
      else
        match parts with
        | [a, b, _, _] =>
          a == 10 || a == 127 || a == 0 || (a == 169 && b == 254)
            || (a == 192 && b == 168) || (a == 172 && 16 ≤ b && b ≤ 31)
        | _ => false
    else h == "::1" || startsWithS h "["

/-- The `url` query parameter as the handler sees it after `new URL`. -/
inductive UrlParam
  /-- Absent or empty `url` parameter. -/
  | missing
  /-- A non-empty string `new URL` rejects. -/
  | invalid
  /-- A parsed URL: `protocol` (with the trailing colon) and `hostname`. -/
  | parsed (protocol : String) (hostname : String)
deriving DecidableEq

/-- An RSS-proxy request. -/
structure RssReq where
  method : String
  url : UrlParam
deriving DecidableEq

/-- What the RSS proxy does with a request before any network activity. -/
inductive RssStep
  /-- Responds with this status without fetching anything. -/
  | done (status : Nat)
  /-- Performs the upstream fetch against this (lowercased) hostname; the
  final status then depends on the upstream. -/
  | fetch (host : String)
deriving DecidableEq

/-- The RSS-proxy handler up to the upstream fetch: OPTIONS short-circuit,
missing/invalid/non-http(s) url → 400, private or non-allowlisted host →
403, else fetch. -/
def rssHandler (req : RssReq) : RssStep :=
  if req.method = "OPTIONS" then .done 200
  else
    match req.url with
    | .missing => .done 400
    | .invalid => .done 400
    | .parsed protocol hostname =>
      if protocol ≠ "https:" ∧ protocol ≠ "http:" then .done 400
      else
        let host := lowerS hostname
        if isPrivateHost host then .done 403
        else if !(ALLOWED_HOSTS.contains host) then .done 403
        else .fetch host

end Serverless

namespace Serverless

/-! ## `api/omdb.js`: daily counter, stats, rate limiter, handler -/

/-- The global daily counter: the stored UTC date string and count. -/
structure Daily where
  date : String
  count : Nat
deriving DecidableEq

/-- `getGlobalDaily()`'s lazy midnight-UTC rollover: any read normalizes the
stored pair to today's, resetting the count when the stored date differs. -/
def normalizeDaily (today : String) (d : Daily) : Daily :=
  if d.date ≠ today then ⟨today, 0⟩ else d

/-- `incrementDaily()`. -/
def incDaily (today : String) (d : Daily) : Daily :=
  let n := normalizeDaily today d
  ⟨n.date, n.count + 1⟩

/-- One day's stats bucket (`count`, `byType`, `byCategory`, `bySource`). -/
structure DayStats where
  count : Nat
  search : Nat
  detail : Nat
  poster : Nat
  movies : Nat
  kdrama : Nat
  anime : Nat
  bollywood : Nat
  website : Nat
  vercel_app : Nat
  manual : Nat
  form_bot : Nat
  other : Nat
deriving DecidableEq

/-- The zero-initialised stats bucket. -/
def emptyDay : DayStats := ⟨0, 0, 0, 0, 0, 0, 0, 0, 0, 0, 0, 0, 0⟩

/-- `d.byType[type] += 1` (call sites only pass the three known types). -/
def bumpType (t : String) (d : DayStats) : DayStats :=
  if t = "search" then { d with search := d.search + 1 }
  else if t = "detail" then { d with detail := d.detail + 1 }
  else if t = "poster" then { d with poster := d.poster + 1 }
  else d

/-- `byCategory` increment, guarded by membership in `CATEGORIES`. -/
def bumpCat (c : String) (d : DayStats) : DayStats :=
  if c = "movies" then { d with movies := d.movies + 1 }
  else if c = "kdrama" then { d with kdrama := d.kdrama + 1 }
  else if c = "anime" then { d with anime := d.anime + 1 }
  else if c = "bollywood" then { d with bollywood := d.bollywood + 1 }
  else d

/-- `bySource` increment (an unknown source counts as `other`). -/
def bumpSrc (s : String) (d : DayStats) : DayStats :=
  if s = "website" then { d with website := d.website + 1 }
  else if s = "vercel_app" then { d with vercel_app := d.vercel_app + 1 }
  else if s = "manual" then { d with manual := d.manual + 1 }
  else if s = "form_bot" then { d with form_bot := d.form_bot + 1 }
  else { d with other := d.other + 1 }

/-- The stats table: day-keyed buckets in key-insertion order (JS object
with date-string keys). -/
structure Stats where
  daily : List (String × DayStats)
deriving DecidableEq

/-- Update the bucket for `today`, inserting a fresh one (at the end, as JS
object insertion does) when absent. -/
def updateDay (f : DayStats → DayStats) (today : String) :
    List (String × DayStats) → List (String × DayStats)
  | [] => [(today, f emptyDay)]
  | (k, d) :: rest =>
    if k = today then (k, f d) :: rest else (k, d) :: updateDay f today rest

/-- The lexicographically smallest key (`Object.keys(...).sort()[0]`). -/
def minKey : List (String × DayStats) → Option String
  | [] => none
  | (k, _) :: rest =>
    match minKey rest with
    | none => some k
    | some k2 => some (min k k2)

/-- `delete stats.daily[k]` (keys are unique). -/
def removeKey (k : String) (l : List (String × DayStats)) : List (String × DayStats) :=
  l.filter fun e => decide (e.1 ≠ k)

/-- The trim loop: delete oldest days while more than `STATS_DAYS = 31`
remain (fuelled by the list length). -/
def trimGo : Nat → List (String × DayStats) → List (String × DayStats)
  | 0, l => l
  | fuel + 1, l =>
    if l.length ≤ 31 then l
    else
      match minKey l with
      | none => l
      | some k => trimGo fuel (removeKey k l)

/-- `recordRequest(type, category, source)` on the stats table. -/
def recordRequest (today t c s : String) (st : Stats) : Stats :=
  let daily' := updateDay
    (fun d => bumpSrc s (bumpCat c (bumpType t { d with count := d.count + 1 })))
    today st.daily
  ⟨trimGo daily'.length daily'⟩

/-- `checkRateLimit`'s prune: `while (times.length && times[0] < now - window)
times.shift()`. -/
def pruneTimes (now windowMs : Int) : List Int → List Int
  | [] => []
  | t :: rest => if t < now - windowMs then pruneTimes now windowMs rest else t :: rest

/-- `rateLimitMap[ip] || []`. -/
def lookupTimes (m : List (String × List Int)) (ip : String) : List Int :=
  match m.find? (fun e => e.1 == ip) with
  | some e => e.2
  | none => []

/-- Store an ip's (mutated-in-place) timestamp array back in the map. -/
def setTimes (m : List (String × List Int)) (ip : String) (ts : List Int) :
    List (String × List Int) :=
  match m with
  | [] => [(ip, ts)]
  | e :: rest => if e.1 = ip then (ip, ts) :: rest else e :: setTimes rest ip ts

/-- Environment of the OMDb proxy: configuration and the frozen clock.
`rateLimit` is the `parseInt(RATE_LIMIT_PER_MINUTE || '0', 10)` outcome
(`none` = `NaN`); `today` is `toISOString().slice(0, 10)` of the clock. -/
structure OmdbEnv where
  apiKey : String
  apiSecret : String
  rateLimit : Option Int
  now : Int
  today : String
deriving DecidableEq

/-- `!limit || limit <= 0` — the rate limiter is enabled otherwise. -/
def rateEnabled (limit : Option Int) : Bool :=
  match limit with
  | none => false
  | some n => !(n == 0) && decide (0 < n)

/-- The module-level mutable state of `omdb.js`. -/
structure OmdbState where
  daily : Daily
  stats : Stats
  rateMap : List (String × List Int)
deriving DecidableEq

/-- One request (string fields use `""` for an absent parameter; `ip` is the
already-resolved client ip; `sourceParam` is the query value or, when that
is falsy, the `x-omdb-source` header value). -/
structure OmdbReq where
  method : String
  usage : String
  statsQ : String
  s : String
  i : String
  t : String
  typeQ : String
  category : String
  sourceParam : String
  xApiKey : String
  ip : String
deriving DecidableEq

/-- An OMDb search item as parsed from upstream JSON. -/
structure SearchItem where
  Title : String
  Year : String
  imdbID : String
  Poster : String
  TypeF : String
deriving DecidableEq

/-- An OMDb by-id payload as parsed from upstream JSON. -/
structure DetailData where
  Response : String
  Title : String
  Year : String
  Rated : String
  Released : String
  Runtime : String
  Genre : String
  Director : String
  Writer : String
  Actors : String
  Plot : String
  Language : String
  Country : String
  Awards : String
  BoxOffice : String
  Poster : String
  imdbRating : String
  imdbID : String
  TypeF : String
deriving DecidableEq

/-- An OMDb by-title payload (only `Poster` is read). -/
structure PosterData where
  Poster : String
deriving DecidableEq

/-- A fetch outcome: `.thrown` models a rejected `fetch`, `.ok` the parsed
JSON (`r.json().catch(() => null)` folds a parse failure into `none`; for
search, into the extracted `[]`). -/
inductive Fetched (α : Type)
  | thrown
  | ok (a : α)
deriving DecidableEq

/-- The upstream outcomes a request would observe. -/
structure OmdbUpstream where
  search : Fetched (List SearchItem)
  detail : Fetched (Option DetailData)
  poster : Fetched (Option PosterData)
deriving DecidableEq

/-- `{ dailyCount, dailyLimit }`. -/
structure UsagePayload where
  dailyCount : Nat
  dailyLimit : Nat
deriving DecidableEq

/-- `usagePayload()` — reading the counter performs the rollover. -/
def usagePayloadOf (today : String) (d : Daily) : UsagePayload :=
  ⟨(normalizeDaily today d).count, 1000⟩

/-- The `Poster` field check: truthy, not `'N/A'`, `indexOf('http') === 0`. -/
def posterOk (p : String) : Bool :=
  p != "" && p != "N/A" && startsWithS p "http"

/-- A search result as reshaped by the proxy. -/
structure SearchOut where
  Title : String
  Year : String
  imdbID : String
  Poster : Option String
  TypeF : String
deriving DecidableEq

/-- `map`ped search item. -/
def mapSearchItem (it : SearchItem) : SearchOut :=
  ⟨it.Title, it.Year, it.imdbID, if posterOk it.Poster then some it.Poster else none, it.TypeF⟩

/-- A by-id payload as reshaped by the proxy. -/
structure DetailOut where
  Title : String
  Year : String
  Rated : String
  Released : String
  Runtime : String
  Genre : String
  Director : String
  Writer : String
  Actors : String
  Plot : String
  Language : String
  Country : String
  Awards : String
  BoxOffice : String
  Poster : Option String
  imdbRating : String
  imdbID : String
  TypeF : String
deriving DecidableEq

/-- The by-id reshaping. -/
def mapDetail (d : DetailData) : DetailOut :=
  ⟨d.Title, d.Year, d.Rated, d.Released, d.Runtime, d.Genre, d.Director, d.Writer,
   d.Actors, d.Plot, d.Language, d.Country, d.Awards, d.BoxOffice,
   if posterOk d.Poster then some d.Poster else none, d.imdbRating, d.imdbID, d.TypeF⟩

/-- A response body (the JSON shapes the handler emits; error shapes with
and without a `poster: null` field are collapsed into `errBody`; the
`stats=1` payload's weekly/monthly serialization is not modelled and the
raw table is carried instead). -/
inductive OmdbBody
  | emptyBody
  | errBody (error : String) (usage : UsagePayload)
  | usageBody (u : UsagePayload)
  | statsBody (s : Stats)
  | searchBody (results : List SearchOut) (usage : UsagePayload)
  | detailBody (d : DetailOut) (usage : UsagePayload)
  | posterBody (poster : Option String) (usage : UsagePayload)
deriving DecidableEq

/-- The `error` field of a body, when present. -/
def OmdbBody.errorField : OmdbBody → Option String
  | .errBody e _ => some e
  | _ => none

/-- A response: status, body, and the `Retry-After` header if set. -/
structure OmdbResp where
  status : Nat
  body : OmdbBody
  retryAfter : Option String
deriving DecidableEq

/-- `/^tt\d+$/`. -/
def imdbIdOk (s : String) : Bool :=
  startsWithS s "tt" && decide (0 < (s.toList.drop 2).length)
    && (s.toList.drop 2).all Char.isDigit

/-- `getCategory()`. -/
def getCategoryOf (c : String) : String :=
  let v := trimS (lowerS c)
  if v = "movies" ∨ v = "kdrama" ∨ v = "anime" ∨ v = "bollywood" then v else ""

/-- `getSource(req)` after the query/header fallback. -/
def getSourceOf (s : String) : String :=
  let v := trimS (lowerS s)
  if v = "website" ∨ v = "vercel_app" ∨ v = "manual" ∨ v = "form_bot" ∨ v = "other"
  then v else "other"

/-- Normalize the stored daily pair, as any `usagePayload()` read does. -/
def normSt (today : String) (st : OmdbState) : OmdbState :=
  { st with daily := normalizeDaily today st.daily }

/-- The OMDb handler: `(response, post-state, upstream fetch count)`.
Branch order as in the source: OPTIONS, method, API secret, rate limit,
`usage=1`, `stats=1`, key presence, daily cap, increment, search, by-id,
poster-by-title. -/
def omdbHandler (env : OmdbEnv) (st : OmdbState) (req : OmdbReq) (up : OmdbUpstream) :
    OmdbResp × OmdbState × Nat :=
  if req.method = "OPTIONS" then (⟨204, .emptyBody, none⟩, st, 0)
  else if req.method ≠ "GET" then
    (⟨405, .errBody "Method not allowed" (usagePayloadOf env.today st.daily), none⟩,
     normSt env.today st, 0)
  else if env.apiSecret ≠ "" ∧ trimS req.xApiKey ≠ env.apiSecret then
    (⟨401, .errBody "Invalid or missing API key" (usagePayloadOf env.today st.daily), none⟩,
     normSt env.today st, 0)
  else
    let rl :=
      if rateEnabled env.rateLimit then
        let pruned := pruneTimes env.now (60 * 1000) (lookupTimes st.rateMap req.ip)
        if decide ((env.rateLimit.getD 0) ≤ (pruned.length : Int)) then
          (true, { st with rateMap := setTimes st.rateMap req.ip pruned })
        else
          (false, { st with rateMap := setTimes st.rateMap req.ip (pruned ++ [env.now]) })
      else (false, st)
    if rl.1 then
      (⟨429, .errBody "Too many requests" (usagePayloadOf env.today rl.2.daily), some "60"⟩,
       normSt env.today rl.2, 0)
    else
      let st1 := rl.2
      if req.usage = "1" then
        (⟨200, .usageBody (usagePayloadOf env.today st1.daily), none⟩,
         normSt env.today st1, 0)
      else if req.statsQ = "1" then
        (⟨200, .statsBody st1.stats, none⟩, st1, 0)
      else if env.apiKey = "" then
        (⟨503, .errBody "OMDb proxy not configured" (usagePayloadOf env.today st1.daily), none⟩,
         normSt env.today st1, 0)
      else
        let st2 := normSt env.today st1
        if 1000 ≤ st2.daily.count then
          (⟨429, .errBody "Daily API limit reached (1000). Resets at midnight UTC."
              (usagePayloadOf env.today st2.daily), none⟩, st2, 0)
        else
          let st3 := { st2 with daily := incDaily env.today st2.daily }
          let cat := getCategoryOf req.category
          let src := getSourceOf req.sourceParam
          let searchQuery := trimS req.s
          if searchQuery ≠ "" ∧ searchQuery.toList.length ≤ 200 then
            let st4 := { st3 with stats := recordRequest env.today "search" cat src st3.stats }
            match up.search with
            | .thrown =>
              (⟨502, .errBody "Upstream error" (usagePayloadOf env.today st4.daily), none⟩,
               st4, 1)
            | .ok list =>
              (⟨200, .searchBody ((list.take 10).map mapSearchItem)
                  (usagePayloadOf env.today st4.daily), none⟩, st4, 1)
          else
            let idQuery := trimS req.i
            if idQuery ≠ "" ∧ imdbIdOk idQuery then
              let st4 := { st3 with stats := recordRequest env.today "detail" cat src st3.stats }
              match up.detail with
              | .thrown =>
                (⟨502, .errBody "Upstream error" (usagePayloadOf env.today st4.daily), none⟩,
                 st4, 1)
              | .ok none =>
                (⟨200, .errBody "Not found" (usagePayloadOf env.today st4.daily), none⟩,
                 st4, 1)
              | .ok (some d) =>
                if d.Response = "False" then
                  (⟨200, .errBody "Not found" (usagePayloadOf env.today st4.daily), none⟩,
                   st4, 1)
                else
                  (⟨200, .detailBody (mapDetail d) (usagePayloadOf env.today st4.daily), none⟩,
                   st4, 1)
            else
              let tQuery := trimS req.t
              if tQuery = "" ∨ 200 < tQuery.toList.length then
                (⟨400, .errBody "Missing or invalid title" (usagePayloadOf env.today st3.daily),
                  none⟩, st3, 0)
              else
                let st4 := { st3 with stats := recordRequest env.today "poster" cat src st3.stats }
                match up.poster with
                | .thrown =>
                  (⟨502, .errBody "Upstream error" (usagePayloadOf env.today st4.daily), none⟩,
                   st4, 1)
                | .ok dOpt =>
                  let poster :=
                    match dOpt with
                    | none => none
                    | some p => if posterOk p.Poster then some p.Poster else none
                  (⟨200, .posterBody poster (usagePayloadOf env.today st4.daily), none⟩,
                   st4, 1)

end Serverless


namespace Serverless

/-! ## Helper lemmas -/

theorem strOr_of_ne {s : String} (d : String) (h : s ≠ "") : strOr s d = s := by
  simp [strOr, h]

theorem str_append_ne_left {p : String} (s : String) (h : p ≠ "") : p ++ s ≠ "" := by
  intro hc
  apply h
  cases p with
  | mk a =>
    cases s with
    | mk b =>
      have hd : a ++ b = [] := congrArg String.data hc
      have ha : a = [] := (List.append_eq_nil.mp hd).1
      simp [ha]

theorem str_append_ne_right (p : String) {s : String} (h : s ≠ "") : p ++ s ≠ "" := by
  intro hc
  apply h
  cases p with
  | mk a =>
    cases s with
    | mk b =>
      have hd : a ++ b = [] := congrArg String.data hc
      have hb : b = [] := (List.append_eq_nil.mp hd).2
      simp [hb]

/-- The dedup filter only discards elements (order is preserved). -/
theorem dedupe5Aux_sublist (seen : List String) (l : List Job) :
    List.Sublist (dedupe5Aux seen l) l := by
  induction l generalizing seen with
  | nil => simp [dedupe5Aux]
  | cons j rest ih =>
    by_cases h : j.url = "" ∨ j.url ∈ seen
    · simp only [dedupe5Aux, if_pos h]
      exact (ih seen).trans (List.sublist_cons_self j rest)
    · simp only [dedupe5Aux, if_neg h]
      exact (ih (j.url :: seen)).cons₂ j

/-- The dedup output has pairwise-distinct urls, all of them unseen. -/
theorem dedupe5Aux_nodup (seen : List String) (l : List Job) :
    ((dedupe5Aux seen l).map Job.url).Nodup ∧
      ∀ u ∈ (dedupe5Aux seen l).map Job.url, u ∉ seen := by
  induction l generalizing seen with
  | nil => simp [dedupe5Aux]
  | cons j rest ih =>
    by_cases h : j.url = "" ∨ j.url ∈ seen
    · simp only [dedupe5Aux, if_pos h]
      exact ih seen
    · obtain ⟨ihn, ihs⟩ := ih (j.url :: seen)
      simp only [dedupe5Aux, if_neg h, List.map_cons, List.nodup_cons]
      refine ⟨⟨?_, ihn⟩, ?_⟩
      · intro hmem
        exact (ihs _ hmem) (List.mem_cons_self _ _)
      · intro u hu
        rcases List.mem_cons.mp hu with rfl | hu2
        · exact fun hc => h (Or.inr hc)
        · exact fun hc => (ihs u hu2) (List.mem_cons_of_mem _ hc)

/-- Membership in the dedup output: exactly the first occurrences of
non-falsy, unseen urls. -/
theorem mem_dedupe5Aux {j : Job} : ∀ (seen : List String) (l : List Job),
    j ∈ dedupe5Aux seen l ↔
      (j.url ≠ "" ∧ j.url ∉ seen ∧
        l.find? (fun x => x.url == j.url) = some j)
  | seen, [] => by simp [dedupe5Aux]
  | seen, x :: rest => by
    by_cases hxj : x.url = j.url
    · have hfind : List.find? (fun x => x.url == j.url) (x :: rest) = some x := by
        rw [List.find?_cons_of_pos _ (by simp [hxj])]
      by_cases hx : x.url = "" ∨ x.url ∈ seen
      · rw [dedupe5Aux, if_pos hx, mem_dedupe5Aux seen rest, hfind]
        constructor
        · rintro ⟨h1, h2, -⟩
          rcases hx with hx | hx
          · exact absurd (hxj ▸ hx) h1
          · exact absurd (hxj ▸ hx) h2
        · rintro ⟨h1, h2, -⟩
          rcases hx with hx | hx
          · exact absurd (hxj ▸ hx) h1
          · exact absurd (hxj ▸ hx) h2
      · rw [dedupe5Aux, if_neg hx, List.mem_cons,
          mem_dedupe5Aux (x.url :: seen) rest, hfind]
        have h1 : x.url ≠ "" := fun hh => hx (Or.inl hh)
        have h2 : x.url ∉ seen := fun hh => hx (Or.inr hh)
        constructor
        · rintro (rfl | ⟨g1, g2, -⟩)
          · exact ⟨h1, h2, rfl⟩
          · exact absurd (hxj ▸ List.mem_cons_self x.url seen) g2
        · rintro ⟨g1, g2, g3⟩
          exact Or.inl (Option.some.inj g3).symm
    · have hfind : List.find? (fun x => x.url == j.url) (x :: rest) =
          List.find? (fun x => x.url == j.url) rest := by
        rw [List.find?_cons_of_neg _ (by simp [hxj])]
      by_cases hx : x.url = "" ∨ x.url ∈ seen
      · rw [dedupe5Aux, if_pos hx, mem_dedupe5Aux seen rest, hfind]
      · rw [dedupe5Aux, if_neg hx, List.mem_cons,
          mem_dedupe5Aux (x.url :: seen) rest, hfind]
        constructor
        · rintro (rfl | ⟨g1, g2, g3⟩)
          · exact absurd rfl hxj
          · exact ⟨g1, fun hc => g2 (List.mem_cons_of_mem _ hc), g3⟩
        · rintro ⟨g1, g2, g3⟩
          refine Or.inr ⟨g1, ?_, g3⟩
          intro hc
          rcases List.mem_cons.mp hc with he | hm
          · exact hxj he.symm
          · exact g2 hm

end Serverless

namespace Serverless

/-- `dedupeByUrl` only discards elements. -/
theorem dedupeByUrlAux_sublist (seen : List String) (l : List PJob) :
    List.Sublist (dedupeByUrlAux seen l) l := by
  induction l generalizing seen with
  | nil => simp [dedupeByUrlAux]
  | cons j rest ih =>
    by_cases h : trimS j.url = "" ∨ trimS j.url ∈ seen
    · simp only [dedupeByUrlAux, if_pos h]
      exact (ih seen).trans (List.sublist_cons_self j rest)
    · simp only [dedupeByUrlAux, if_neg h]
      exact (ih (trimS j.url :: seen)).cons₂ j

/-- `dedupeByUrl`'s output has pairwise-distinct trimmed urls. -/
theorem dedupeByUrlAux_nodup (seen : List String) (l : List PJob) :
    ((dedupeByUrlAux seen l).map (fun j => trimS j.url)).Nodup ∧
      ∀ u ∈ (dedupeByUrlAux seen l).map (fun j => trimS j.url), u ∉ seen := by
  induction l generalizing seen with
  | nil => simp [dedupeByUrlAux]
  | cons j rest ih =>
    by_cases h : trimS j.url = "" ∨ trimS j.url ∈ seen
    · simp only [dedupeByUrlAux, if_pos h]
      exact ih seen
    · obtain ⟨ihn, ihs⟩ := ih (trimS j.url :: seen)
      simp only [dedupeByUrlAux, if_neg h, List.map_cons, List.nodup_cons]
      refine ⟨⟨?_, ihn⟩, ?_⟩
      · intro hmem
        exact (ihs _ hmem) (List.mem_cons_self _ _)
      · intro u hu
        rcases List.mem_cons.mp hu with rfl | hu2
        · exact fun hc => h (Or.inr hc)
        · exact fun hc => (ihs u hu2) (List.mem_cons_of_mem _ hc)

/-- Membership in `dedupeByUrl`'s output: first occurrences of non-empty
trimmed urls. -/
theorem mem_dedupeByUrlAux {j : PJob} : ∀ (seen : List String) (l : List PJob),
    j ∈ dedupeByUrlAux seen l ↔
      (trimS j.url ≠ "" ∧ trimS j.url ∉ seen ∧
        l.find? (fun x => trimS x.url == trimS j.url) = some j)
  | seen, [] => by simp [dedupeByUrlAux]
  | seen, x :: rest => by
    by_cases hxj : trimS x.url = trimS j.url
    · have hfind : List.find? (fun x => trimS x.url == trimS j.url) (x :: rest) = some x := by
        rw [List.find?_cons_of_pos _ (by simp [hxj])]
      by_cases hx : trimS x.url = "" ∨ trimS x.url ∈ seen
      · rw [dedupeByUrlAux, if_pos hx, mem_dedupeByUrlAux seen rest, hfind]
        constructor
        · rintro ⟨h1, h2, -⟩
          rcases hx with hx | hx
          · exact absurd (hxj ▸ hx) h1
          · exact absurd (hxj ▸ hx) h2
        · rintro ⟨h1, h2, -⟩
          rcases hx with hx | hx
          · exact absurd (hxj ▸ hx) h1
          · exact absurd (hxj ▸ hx) h2
      · rw [dedupeByUrlAux, if_neg hx, List.mem_cons,
          mem_dedupeByUrlAux (trimS x.url :: seen) rest, hfind]
        have h1 : trimS x.url ≠ "" := fun hh => hx (Or.inl hh)
        have h2 : trimS x.url ∉ seen := fun hh => hx (Or.inr hh)
        constructor
        · rintro (rfl | ⟨g1, g2, -⟩)
          · exact ⟨h1, h2, rfl⟩
          · exact absurd (hxj ▸ List.mem_cons_self (trimS x.url) seen) g2
        · rintro ⟨g1, g2, g3⟩
          exact Or.inl (Option.some.inj g3).symm
    · have hfind : List.find? (fun x => trimS x.url == trimS j.url) (x :: rest) =
          List.find? (fun x => trimS x.url == trimS j.url) rest := by
        rw [List.find?_cons_of_neg _ (by simp [hxj])]
      by_cases hx : trimS x.url = "" ∨ trimS x.url ∈ seen
      · rw [dedupeByUrlAux, if_pos hx, mem_dedupeByUrlAux seen rest, hfind]
      · rw [dedupeByUrlAux, if_neg hx, List.mem_cons,
          mem_dedupeByUrlAux (trimS x.url :: seen) rest, hfind]
        constructor
        · rintro (rfl | ⟨g1, g2, g3⟩)
          · exact absurd rfl hxj
          · exact ⟨g1, fun hc => g2 (List.mem_cons_of_mem _ hc), g3⟩
        · rintro ⟨g1, g2, g3⟩
          refine Or.inr ⟨g1, ?_, g3⟩
          intro hc
          rcases List.mem_cons.mp hc with he | hm
          · exact hxj he.symm
          · exact g2 hm

/-- `jobRel` is total. -/
instance (now : Int) : IsTotal Job (jobRel now) := by
  constructor
  intro a b
  unfold jobRel
  rcases lt_trichotomy a.rank b.rank with h | h | h
  · exact Or.inr (Or.inl h)
  · rcases le_total (jobTime now a) (jobTime now b) with ht | ht
    · exact Or.inr (Or.inr ⟨h, ht⟩)
    · exact Or.inl (Or.inr ⟨h.symm, ht⟩)
  · exact Or.inl (Or.inl h)

/-- `jobRel` is transitive. -/
instance (now : Int) : IsTrans Job (jobRel now) := by
  constructor
  intro a b c hab hbc
  unfold jobRel at *
  rcases hab with h1 | ⟨h1, h1t⟩ <;> rcases hbc with h2 | ⟨h2, h2t⟩
  · exact Or.inl (h2.trans h1)
  · exact Or.inl (h2 ▸ h1)
  · exact Or.inl (h1 ▸ h2)
  · exact Or.inr ⟨h2.trans h1, h2t.trans h1t⟩

/-- `pLocRel` is total. -/
instance : IsTotal PJob pLocRel := by
  constructor
  intro a b
  unfold pLocRel
  cases ha : pRemote a.location <;> cases hb : pRemote b.location <;> simp [ha, hb]

/-- `pLocRel` is transitive. -/
instance : IsTrans PJob pLocRel := by
  constructor
  intro a b c hab hbc
  unfold pLocRel at *
  rcases hab with h1 | h1
  · exact Or.inl h1
  · rcases hbc with h2 | h2
    · rw [h1] at h2
      cases h2
    · exact Or.inr h2

end Serverless

namespace Serverless

/-- Response jobs are (a permutation of a sublist of) the fresh-filtered,
rank-filtered merged list. -/
theorem mem_snapshotJobs_fresh {env : Env} {rng : Nat → String} {q : Part5Query}
    {inp : Part5Inputs} {j : Job} (h : j ∈ snapshotJobs env rng q inp) :
    j ∈ freshFilter env (clampI (intOr q.days 7) 1 30 * dayMs)
      (rankFilter (buildJobs env rng inp)) := by
  simp only [snapshotJobs] at h
  have h1 := List.mem_of_mem_take h
  rw [List.mem_insertionSort] at h1
  exact (dedupe5Aux_sublist [] _).subset h1

/-- Every listing a snapshot response returns has non-negative `_rank`. -/
theorem snapshotJobs_rank_nonneg {env : Env} {rng : Nat → String} {q : Part5Query}
    {inp : Part5Inputs} {j : Job} (h : j ∈ snapshotJobs env rng q inp) :
    0 ≤ j.rank := by
  have h2 := (List.filter_sublist _).subset (mem_snapshotJobs_fresh h)
  simp only [rankFilter] at h2
  have h3 := List.of_mem_filter h2
  simp only [Bool.not_eq_eq_eq_not, Bool.not_true, decide_eq_false_iff_not, not_lt] at h3
  exact h3

/-- Every listing a snapshot response returns has a parseable date within
the effective freshness window. -/
theorem snapshotJobs_freshness {env : Env} {rng : Nat → String} {q : Part5Query}
    {inp : Part5Inputs} {j : Job} (h : j ∈ snapshotJobs env rng q inp) :
    ∃ t, parseDateLike env.now j.date = some t ∧
      env.now - t ≤ clampI (intOr q.days 7) 1 30 * dayMs := by
  have h2 := mem_snapshotJobs_fresh h
  simp only [freshFilter] at h2
  have h3 := List.of_mem_filter h2
  cases hp : parseDateLike env.now j.date with
  | none => rw [hp] at h3; cases h3
  | some t =>
    rw [hp] at h3
    simp only [decide_eq_true_eq] at h3
    exact ⟨t, rfl, h3⟩

end Serverless

namespace Serverless

/-! ## Claim C1 -/

/-- **C1.** In every response of a job aggregation handler (the
jobs-snapshot aggregator and the headless all-portals scraper) no two
listings share the same `url`; the URL dedup keeps, among merged raw
records with the same url, exactly the one `find?` locates first in
processing order and discards every later one; and both pipelines apply
this dedup to the merged list (after merging all sources) and sort the
deduplicated list (so dedup precedes the final sort). -/
theorem c1_dedup_first_wins_unique_urls :
    (∀ env rng q inp, ((snapshotResponse env rng q inp).jobs.map Job.url).Nodup)
    ∧ (∀ now maxDays results,
        (((allPortalsResult now maxDays results).jobs.map PJob.url).Nodup))
    ∧ (∀ (l : List Job) (j : Job), j ∈ dedupe5 l ↔
        (j.url ≠ "" ∧ l.find? (fun x => x.url == j.url) = some j))
    ∧ (∀ (l : List PJob) (j : PJob), j ∈ dedupeByUrl l ↔
        (trimS j.url ≠ "" ∧ l.find? (fun x => trimS x.url == trimS j.url) = some j))
    ∧ (∀ l : List Job, List.Sublist (dedupe5 l) l)
    ∧ (∀ l : List PJob, List.Sublist (dedupeByUrl l) l)
    ∧ (∀ env rng q inp,
        (snapshotResponse env rng q inp).jobs =
          ((dedupe5 (freshFilter env (clampI (intOr q.days 7) 1 30 * dayMs)
            (rankFilter (buildJobs env rng inp)))).insertionSort
              (jobRel env.now)).take (clampI (intOr q.limit 180) 10 400).toNat)
    ∧ (∀ now maxDays results,
        allPortalsJobs now maxDays results =
          sortByLocation (filterByDate now maxDays (dedupeByUrl (mergeResults results)))) := by
  refine ⟨?_, ?_, ?_, ?_, ?_, ?_, fun env rng q inp => rfl, fun now md rs => rfl⟩
  · intro env rng q inp
    show ((snapshotJobs env rng q inp).map Job.url).Nodup
    simp only [snapshotJobs]
    have hd : ((dedupe5 (freshFilter env (clampI (intOr q.days 7) 1 30 * dayMs)
        (rankFilter (buildJobs env rng inp)))).map Job.url).Nodup :=
      (dedupe5Aux_nodup [] _).1
    have hperm := (List.perm_insertionSort (jobRel env.now)
      (dedupe5 (freshFilter env (clampI (intOr q.days 7) 1 30 * dayMs)
        (rankFilter (buildJobs env rng inp))))).map Job.url
    have hsorted := (hperm.nodup_iff).mpr hd
    rw [List.map_take]
    exact hsorted.sublist (List.take_sublist _ _)
  · intro now md results
    show ((allPortalsJobs now md results).map PJob.url).Nodup
    have hd := (dedupeByUrlAux_nodup [] (mergeResults results)).1
    have hf : ((filterByDate now md (dedupeByUrl (mergeResults results))).map
        (fun j => trimS j.url)).Nodup := by
      refine hd.sublist (List.Sublist.map _ ?_)
      cases md with
      | none =>
        simp only [filterByDate]
        exact List.Sublist.refl _
      | some d =>
        by_cases hdz : d = 0
        · simp only [filterByDate, if_pos hdz]
          exact List.Sublist.refl _
        · simp only [filterByDate, if_neg hdz]
          exact List.filter_sublist _
    have hperm := (List.perm_insertionSort pLocRel
      (filterByDate now md (dedupeByUrl (mergeResults results)))).map
        (fun j => trimS j.url)
    have hs : ((allPortalsJobs now md results).map (fun j => trimS j.url)).Nodup :=
      (hperm.nodup_iff).mpr hf
    have hs2 : ((allPortalsJobs now md results).map PJob.url).map trimS |>.Nodup := by
      rw [List.map_map]
      exact hs
    exact hs2.of_map trimS
  · intro l j
    rw [dedupe5, mem_dedupe5Aux]
    simp
  · intro l j
    rw [dedupeByUrl, mem_dedupeByUrlAux]
    simp
  · intro l
    exact dedupe5Aux_sublist [] l
  · intro l
    exact dedupeByUrlAux_sublist [] l

/-- Witness environment for concrete instantiations (frozen clock, trivial
locale/experience oracles). -/
def wEnv : Env := ⟨1700000000000, fun _ => "17 Nov 2023", fun _ => noExp⟩

/-- Witness rng oracle. -/
def wRng : Nat → String := fun _ => "0.5q"

/-- Witness query. -/
def wQuery : Part5Query := ⟨"", some 7, some 10⟩

/-- A first witness listing. -/
def c1wJobA : Job :=
  ⟨"a", "Data Analyst", "Acme", "Remote", "https://a.co/1", "", "remoteok",
   .abs 1699999999000, "", "", [], 320, "tier1"⟩

/-- A second witness listing with the same url. -/
def c1wJobB : Job :=
  ⟨"b", "Product Analyst", "Bcme", "Remote", "https://a.co/1", "", "remotive",
   .abs 1699999998000, "", "", [], 320, "tier1"⟩

/-- Witness inputs: one RemoteOK item. -/
def c1wInp : Part5Inputs :=
  ⟨[some ⟨"1", "Data Analyst", "Acme", "Remote", "https://a.co/1", "", none,
      .abs 1699999999000⟩], none, [], none, false, none, none, none, none, []⟩

/-- Concrete instantiation of the C1 theorem: unique urls in a concrete
response, and first-occurrence-wins on a concrete duplicate pair. -/
theorem c1_witness :
    ((snapshotResponse wEnv wRng wQuery c1wInp).jobs.map Job.url).Nodup ∧
      c1wJobA ∈ dedupe5 [c1wJobA, c1wJobB] :=
  ⟨c1_dedup_first_wins_unique_urls.1 wEnv wRng wQuery c1wInp,
   (c1_dedup_first_wins_unique_urls.2.2.1 [c1wJobA, c1wJobB] c1wJobA).mpr (by decide)⟩

end Serverless

namespace Serverless

/-! ## Claim C3 -/

/-- Shared witness inputs: one qualifying RemoteOK item. -/
def wInp : Part5Inputs :=
  ⟨[some ⟨"1", "Data Analyst", "Acme", "Remote", "https://a.co/1", "", none,
      .abs 1699999999000⟩], none, [], none, false, none, none, none, none, []⟩

/-- **C3.** For every request to the jobs-snapshot aggregator, the number of
listings returned is at most the effective (clamped, response-echoed)
`limit`; that limit is `clamp(parseInt(limit) || 180, 10, 400)` and hence at
most the configured maximum `MAX_LIMIT = 400`; and the final listing array
is exactly the truncation of the sorted deduplicated list to that cap. -/
theorem c3_limit_clamp :
    ∀ env rng q inp,
      (((snapshotResponse env rng q inp).count : Int) ≤ (snapshotResponse env rng q inp).limit)
      ∧ (snapshotResponse env rng q inp).limit ≤ 400
      ∧ (snapshotResponse env rng q inp).limit = clampI (intOr q.limit 180) 10 400
      ∧ (snapshotResponse env rng q inp).jobs =
          ((dedupe5 (freshFilter env (clampI (intOr q.days 7) 1 30 * dayMs)
            (rankFilter (buildJobs env rng inp)))).insertionSort
              (jobRel env.now)).take (snapshotResponse env rng q inp).limit.toNat := by
  intro env rng q inp
  have hlim : clampI (intOr q.limit 180) 10 400 ≤ 400 := by
    simp only [clampI]
    exact max_le (by norm_num) (min_le_left _ _)
  have h10 : (10 : Int) ≤ clampI (intOr q.limit 180) 10 400 := le_max_left _ _
  refine ⟨?_, hlim, rfl, rfl⟩
  show ((snapshotJobs env rng q inp).length : Int) ≤ clampI (intOr q.limit 180) 10 400
  simp only [snapshotJobs]
  have hle := List.length_take_le (clampI (intOr q.limit 180) 10 400).toNat
    ((dedupe5 (freshFilter env (clampI (intOr q.days 7) 1 30 * dayMs)
      (rankFilter (buildJobs env rng inp)))).insertionSort (jobRel env.now))
  have hcast : (((clampI (intOr q.limit 180) 10 400).toNat : Int)) =
      clampI (intOr q.limit 180) 10 400 :=
    Int.toNat_of_nonneg (le_trans (by norm_num) h10)
  calc (((((dedupe5 (freshFilter env (clampI (intOr q.days 7) 1 30 * dayMs)
        (rankFilter (buildJobs env rng inp)))).insertionSort
          (jobRel env.now)).take (clampI (intOr q.limit 180) 10 400).toNat).length : Int))
      ≤ ((clampI (intOr q.limit 180) 10 400).toNat : Int) := by exact_mod_cast hle
    _ = clampI (intOr q.limit 180) 10 400 := hcast

/-- Concrete instantiation of the C3 theorem. -/
theorem c3_witness :
    (((snapshotResponse wEnv wRng wQuery wInp).count : Int) ≤
      (snapshotResponse wEnv wRng wQuery wInp).limit)
    ∧ (snapshotResponse wEnv wRng wQuery wInp).limit ≤ 400 :=
  ⟨(c3_limit_clamp wEnv wRng wQuery wInp).1, (c3_limit_clamp wEnv wRng wQuery wInp).2.1⟩

end Serverless

namespace Serverless

/-! ## Claim C2 -/

/-- Counterexample inputs: a single RemoteOK listing dated one day in the
future. -/
def c2cInp : Part5Inputs :=
  ⟨[some ⟨"1", "Data Analyst", "Acme", "Remote", "https://future.co/1", "", none,
      .abs (1700000000000 + 86400000)⟩], none, [], none, false, none, none, none, none, []⟩

/-- **C2 counterexample.** A listing whose date parses to one day in the
future of the frozen clock appears in the snapshot response for `days = 7`:
its parsed date does not lie within `[now - days*24h, now]` (it exceeds
`now`), so the claimed interval bound is false as stated. -/
theorem c2_counterexample :
    ((snapshotResponse wEnv wRng wQuery c2cInp).jobs.map Job.date =
      [JsDate.abs (1700000000000 + 86400000)])
    ∧ (snapshotResponse wEnv wRng wQuery c2cInp).days = 7
    ∧ parseDateLike wEnv.now (JsDate.abs (1700000000000 + 86400000)) =
        some (1700000000000 + 86400000)
    ∧ wEnv.now < 1700000000000 + 86400000 := by decide

/-- **C2 (amended).** In the jobs-snapshot aggregator every returned
listing's date parses, and the parsed time `t` satisfies
`now - t ≤ days*24h` — a lower bound only: dates in the future of `now` are
not excluded — and merged records with unparseable dates are dropped
(membership implies a successful parse).  In the all-portals scraper's
`filterByDate`, a record is kept exactly when its date fails to parse or
parses to a time at or after the cutoff: unparseable-date records are kept
there, not dropped. -/
theorem c2_freshness_amended :
    (∀ env rng q inp j, j ∈ (snapshotResponse env rng q inp).jobs →
      ∃ t, parseDateLike env.now j.date = some t ∧
        env.now - t ≤ (snapshotResponse env rng q inp).days * dayMs)
    ∧ (∀ now d (jobs : List PJob) job, job ∈ filterByDate now (some d) jobs ↔
        (job ∈ jobs ∧ (d ≠ 0 →
          ∀ t, parseDate now (pdOr job.date job.postedDate) = some t →
            now - d * dayMs ≤ t))) := by
  constructor
  · intro env rng q inp j hj
    exact snapshotJobs_freshness hj
  · intro now d jobs job
    by_cases hd : d = 0
    · subst hd
      simp [filterByDate]
    · simp only [filterByDate, if_neg hd, List.mem_filter]
      constructor
      · rintro ⟨hm, hp⟩
        refine ⟨hm, fun _ t ht => ?_⟩
        rw [ht] at hp
        simpa using hp
      · rintro ⟨hm, hp⟩
        refine ⟨hm, ?_⟩
        cases hpd : parseDate now (pdOr job.date job.postedDate) with
        | none => simp
        | some t =>
          simp only [decide_eq_true_eq]
          exact hp hd t hpd

/-- The witness listing of `wInp` after normalization. -/
def c2wJob : Job :=
  normalizeJob wEnv (wRng 0)
    ⟨"remoteok_1", "Data Analyst", "Acme", "Remote", "https://a.co/1", "",
     "remoteok", .abs 1699999999000, some [], some 320, "tier1"⟩

/-- A witness record for `filterByDate`. -/
def c2wPJob : PJob :=
  ⟨"Data Analyst", "Acme", "Remote", "https://a.co/2", "", "indeed",
   .abs 1699999999000, .missing⟩

/-- Concrete instantiation of the amended C2 theorem. -/
theorem c2_amended_witness :
    (∃ t, parseDateLike wEnv.now c2wJob.date = some t ∧
      wEnv.now - t ≤ (snapshotResponse wEnv wRng wQuery wInp).days * dayMs)
    ∧ c2wPJob ∈ filterByDate wEnv.now (some 3) [c2wPJob] :=
  ⟨c2_freshness_amended.1 wEnv wRng wQuery wInp c2wJob (by decide),
   (c2_freshness_amended.2 wEnv.now 3 [c2wPJob] c2wPJob).mpr (by decide)⟩

end Serverless

namespace Serverless

/-! ## Claim C5 -/

/-- The composite score of a record as the aggregator computes `_rank`:
role-tier + location + experience sub-scores. -/
def compositeScore (title description location : String) (f : ExpFeatures) : Int :=
  (roleTierRank title description).score + locationRank location
    + (experienceLevelMatch f).score

/-- Counterexample inputs: a pure data-engineering listing in remote India
(composite score `-100 + 150 + 0 = 50 ≥ 0`). -/
def c5cInp : Part5Inputs :=
  ⟨[some ⟨"9", "Data Engineer", "Acme", "remote india", "https://de.co/1", "",
      none, .abs 1699999999000⟩], none, [], none, false, none, none, none, none, []⟩

/-- **C5 counterexample.** A listing with composite score `50 ≥ 0` (role
tier `-100`, location `150`, experience `0`) passes the keyword filter but
is excluded from the response: the per-source ingestion drops any record
whose role-tier score alone is negative, so non-negative composite score
does not protect a listing from the scoring exclusion. -/
theorem c5_counterexample :
    compositeScore "Data Engineer" "" "remote india" noExp = 50
    ∧ (0 : Int) ≤ compositeScore "Data Engineer" "" "remote india" noExp
    ∧ (roleTierRank "Data Engineer" "").score = -100
    ∧ containsAny ("Data Engineer" ++ " " ++ "" ++ " "
        ++ joinTags (none : Option (List String))) snapshotKeywords = true
    ∧ (snapshotResponse wEnv wRng wQuery c5cInp).jobs = [] := by decide

/-- The range loop of the experience matcher only produces non-negative
scores. -/
theorem expFromRanges_nonneg : ∀ (l : List (Nat × Nat)) (s : Int),
    expFromRanges l = some s → 0 ≤ s := by
  intro l
  induction l with
  | nil => intro s h; cases h
  | cons p rest ih =>
    intro s h
    rw [expFromRanges] at h
    split at h
    · cases h; norm_num
    · split at h
      · cases h; norm_num
      · exact ih s h

/-- **C5 (amended).** Every listing with a negative composite score is
excluded (all returned listings have `_rank ≥ 0`), but the exclusion
mechanism is the role-tier sub-score: location and experience sub-scores
are never negative, the role-tier score is negative only in the `excluded`
case (where it is `-100`), a record with non-negative role-tier score has
non-negative composite score, and a record with negative role-tier score is
dropped at ingestion even when its composite score is non-negative. -/
theorem c5_negative_score_amended :
    (∀ env rng q inp j, j ∈ (snapshotResponse env rng q inp).jobs → 0 ≤ j.rank)
    ∧ (∀ loc, 0 ≤ locationRank loc)
    ∧ (∀ f, 0 ≤ (experienceLevelMatch f).score)
    ∧ (∀ title desc, (roleTierRank title desc).score < 0 →
        (roleTierRank title desc).score = -100)
    ∧ (∀ title desc loc f, 0 ≤ (roleTierRank title desc).score →
        0 ≤ compositeScore title desc loc f) := by
  have hloc : ∀ loc, 0 ≤ locationRank loc := by
    intro loc
    simp only [locationRank]
    split_ifs <;> norm_num
  have hexp : ∀ f, 0 ≤ (experienceLevelMatch f).score := by
    intro f
    simp only [experienceLevelMatch]
    cases hr : expFromRanges f.ranges with
    | none => split_ifs <;> norm_num
    | some s => exact expFromRanges_nonneg f.ranges s hr
  refine ⟨?_, hloc, hexp, ?_, ?_⟩
  · intro env rng q inp j hj
    exact snapshotJobs_rank_nonneg hj
  · intro title desc
    simp only [roleTierRank]
    split_ifs <;> simp
  · intro title desc loc f hrole
    have := hloc loc
    have := hexp f
    simp only [compositeScore]
    omega

/-- Concrete instantiation of the amended C5 theorem. -/
theorem c5_amended_witness :
    (0 : Int) ≤ c2wJob.rank ∧
      0 ≤ compositeScore "Data Analyst" "" "Remote" noExp := by
  constructor
  · exact c5_negative_score_amended.1 wEnv wRng wQuery wInp c2wJob (by decide)
  · exact c5_negative_score_amended.2.2.2.2 "Data Analyst" "" "Remote" noExp (by decide)

end Serverless

namespace Serverless

/-! ## Claim C4 -/

/-- Counterexample input for the all-portals scraper: a non-remote
high-scoring fresh listing merged before a remote low-scoring older one. -/
def c4cResults : List SourceResult :=
  [⟨"portal",
    [⟨"Data Analyst", "Acme", "Pune", "https://a.co/pune", "", "x",
       .abs (1700000000000 - 1000), .missing⟩,
     ⟨"Job Opening", "Bcme", "Remote", "https://b.co/rem", "", "x",
       .abs (1700000000000 - 2000), .missing⟩]⟩]

/-- **C4 counterexample.** The all-portals handler's response puts the
remote listing first even though its composite score (120) is lower than
the non-remote listing's (280) and its date is older: `sortByLocation`
orders remote-first, not by descending composite score with date
tie-breaks. -/
theorem c4_counterexample :
    ((allPortalsResult 1700000000000 (some 3) c4cResults).jobs.map PJob.url =
      ["https://b.co/rem", "https://a.co/pune"])
    ∧ compositeScore "Job Opening" "" "Remote" noExp <
        compositeScore "Data Analyst" "" "Pune" noExp
    ∧ ((allPortalsResult 1700000000000 (some 3) c4cResults).jobs.map
        (fun j => parseDate 1700000000000 (pdOr j.date j.postedDate))) =
      [some (1700000000000 - 2000), some (1700000000000 - 1000)] := by decide

/-- Fifteen qualifying, non-duplicate, fresh RemoteOK listings, merged in
descending (rank, date) order. -/
def c4sInp : Part5Inputs :=
  ⟨[some ⟨"01", "Data Analyst 01", "A", "remote india", "https://j.co/01", "", none, .abs (1700000000000 - 1000)⟩,
    some ⟨"02", "Data Analyst 02", "A", "remote india", "https://j.co/02", "", none, .abs (1700000000000 - 2000)⟩,
    some ⟨"03", "Data Analyst 03", "A", "remote india", "https://j.co/03", "", none, .abs (1700000000000 - 3000)⟩,
    some ⟨"04", "Data Analyst 04", "A", "remote india", "https://j.co/04", "", none, .abs (1700000000000 - 4000)⟩,
    some ⟨"05", "Data Analyst 05", "A", "Remote", "https://j.co/05", "", none, .abs (1700000000000 - 1000)⟩,
    some ⟨"06", "Data Analyst 06", "A", "Remote", "https://j.co/06", "", none, .abs (1700000000000 - 2000)⟩,
    some ⟨"07", "Data Analyst 07", "A", "Remote", "https://j.co/07", "", none, .abs (1700000000000 - 3000)⟩,
    some ⟨"08", "Data Analyst 08", "A", "Remote", "https://j.co/08", "", none, .abs (1700000000000 - 4000)⟩,
    some ⟨"09", "Data Analyst 09", "A", "Pune", "https://j.co/09", "", none, .abs (1700000000000 - 1000)⟩,
    some ⟨"10", "Data Analyst 10", "A", "Pune", "https://j.co/10", "", none, .abs (1700000000000 - 2000)⟩,
    some ⟨"11", "Data Analyst 11", "A", "Pune", "https://j.co/11", "", none, .abs (1700000000000 - 3000)⟩,
    some ⟨"12", "Data Analyst 12", "A", "Pune", "https://j.co/12", "", none, .abs (1700000000000 - 4000)⟩,
    some ⟨"13", "Data Analyst 13", "A", "office", "https://j.co/13", "", none, .abs (1700000000000 - 1000)⟩,
    some ⟨"14", "Data Analyst 14", "A", "office", "https://j.co/14", "", none, .abs (1700000000000 - 2000)⟩,
    some ⟨"15", "Data Analyst 15", "A", "office", "https://j.co/15", "", none, .abs (1700000000000 - 3000)⟩],
   none, [], none, false, none, none, none, none, []⟩

/-- The example's query: `q="data analyst", days=7, limit=10`. -/
def c4sQuery : Part5Query := ⟨"data analyst", some 7, some 10⟩

/-- **C4 (amended).** The jobs-snapshot aggregator's listings are sorted by
descending `_rank` (composite score) with ties broken by descending parsed
date, and on the concrete source set of 15 qualifying, non-duplicate, fresh
listings with `limit = 10` it returns exactly the top 10 in that order.
The all-portals scraper instead sorts listings whose location matches the
remote pattern before all others (`sortByLocation`), not by composite
score. -/
theorem c4_ordering_amended :
    (∀ env rng q inp, List.Pairwise (jobRel env.now) (snapshotResponse env rng q inp).jobs)
    ∧ ((snapshotResponse wEnv wRng c4sQuery c4sInp).count = 10
        ∧ (snapshotResponse wEnv wRng c4sQuery c4sInp).jobs.map Job.url =
            ["https://j.co/01", "https://j.co/02", "https://j.co/03", "https://j.co/04",
             "https://j.co/05", "https://j.co/06", "https://j.co/07", "https://j.co/08",
             "https://j.co/09", "https://j.co/10"]
        ∧ (dedupe5 (freshFilter wEnv (clampI (intOr c4sQuery.days 7) 1 30 * dayMs)
            (rankFilter (buildJobs wEnv wRng c4sInp)))).length = 15)
    ∧ (∀ now maxDays results, List.Pairwise pLocRel (allPortalsJobs now maxDays results)) := by
  refine ⟨?_, by decide, ?_⟩
  · intro env rng q inp
    show List.Pairwise (jobRel env.now) (snapshotJobs env rng q inp)
    simp only [snapshotJobs]
    exact (List.sorted_insertionSort (jobRel env.now) _).sublist (List.take_sublist _ _)
  · intro now maxDays results
    exact List.sorted_insertionSort pLocRel _

/-- Concrete instantiation of the amended C4 theorem's universal parts. -/
theorem c4_amended_witness :
    List.Pairwise (jobRel wEnv.now) (snapshotResponse wEnv wRng wQuery wInp).jobs
    ∧ List.Pairwise pLocRel (allPortalsJobs 1700000000000 (some 3) c4cResults) :=
  ⟨c4_ordering_amended.1 wEnv wRng wQuery wInp,
   c4_ordering_amended.2.2 1700000000000 (some 3) c4cResults⟩

end Serverless

namespace Serverless

/-! ## Claim C10 -/

/-- **C10 counterexample.** A request whose url parameter has the private
hostname `localhost` but the `ftp:` protocol is answered with status 400
(at the protocol gate), not the claimed 403. -/
theorem c10_counterexample :
    isPrivateHost "localhost" = true
    ∧ rssHandler ⟨"GET", .parsed "ftp:" "localhost"⟩ = .done 400
    ∧ rssHandler ⟨"GET", .parsed "ftp:" "localhost"⟩ ≠ .done 403 := by decide

/-- **C10 (amended).** For every non-OPTIONS request whose url parameter
parses as an `http:`/`https:` URL whose (lowercased) hostname is
private/loopback or absent from the fixed allowlist, the handler responds
403 and performs no upstream fetch (missing, unparseable, or non-http(s)
urls get 400, likewise without fetching); a fetch happens only for an
allowlisted hostname that is not private, and every allowlisted hostname
is public. -/
theorem c10_host_gate_amended :
    (∀ m proto host, m ≠ "OPTIONS" → (proto = "https:" ∨ proto = "http:") →
      (isPrivateHost (lowerS host) = true ∨ ALLOWED_HOSTS.contains (lowerS host) = false) →
      rssHandler ⟨m, .parsed proto host⟩ = .done 403)
    ∧ (∀ req h, rssHandler req = .fetch h →
        ∃ proto host, req.url = .parsed proto host ∧ (proto = "https:" ∨ proto = "http:")
          ∧ h = lowerS host ∧ isPrivateHost h = false ∧ ALLOWED_HOSTS.contains h = true)
    ∧ ALLOWED_HOSTS.all (fun h => !(isPrivateHost h)) = true := by
  refine ⟨?_, ?_, by decide⟩
  · intro m proto host hm hp hg
    simp only [rssHandler, if_neg hm]
    have hp2 : ¬(proto ≠ "https:" ∧ proto ≠ "http:") := by
      rcases hp with h | h <;> simp [h]
    rw [if_neg hp2]
    rcases hg with hg | hg
    · rw [if_pos hg]
    · by_cases hpriv : isPrivateHost (lowerS host) = true
      · rw [if_pos hpriv]
      · rw [if_neg hpriv, if_pos (by rw [hg]; rfl)]
  · intro req h hstep
    obtain ⟨m, u⟩ := req
    by_cases hm : m = "OPTIONS"
    · rw [rssHandler, if_pos hm] at hstep
      exact (RssStep.noConfusion hstep)
    · cases u with
      | missing =>
        rw [rssHandler, if_neg hm] at hstep
        exact (RssStep.noConfusion hstep)
      | invalid =>
        rw [rssHandler, if_neg hm] at hstep
        exact (RssStep.noConfusion hstep)
      | parsed proto host =>
        simp only [rssHandler, if_neg hm] at hstep
        by_cases hp : proto ≠ "https:" ∧ proto ≠ "http:"
        · rw [if_pos hp] at hstep
          exact (RssStep.noConfusion hstep)
        · rw [if_neg hp] at hstep
          by_cases hpriv : isPrivateHost (lowerS host) = true
          · rw [if_pos hpriv] at hstep
            exact (RssStep.noConfusion hstep)
          · rw [if_neg hpriv] at hstep
            by_cases hal : ALLOWED_HOSTS.contains (lowerS host) = true
            · rw [if_neg (by rw [hal]; decide)] at hstep
              injection hstep with hh
              subst hh
              refine ⟨proto, host, rfl, ?_, rfl, by simpa using hpriv, hal⟩
              by_cases h1 : proto = "https:"
              · exact Or.inl h1
              · exact Or.inr (by tauto)
            · rw [if_pos (by simp only [Bool.not_eq_true] at hal; rw [hal]; rfl)] at hstep
              exact (RssStep.noConfusion hstep)

/-- Concrete instantiation of the amended C10 theorem: a private-range ip
is refused with 403, and the fetch of an allowlisted host satisfies the
gate conditions. -/
theorem c10_amended_witness :
    rssHandler ⟨"GET", .parsed "https:" "192.168.1.5"⟩ = .done 403
    ∧ ∃ proto host, (⟨"GET", .parsed "https:" "remoteok.com"⟩ : RssReq).url =
          .parsed proto host ∧ (proto = "https:" ∨ proto = "http:")
        ∧ "remoteok.com" = lowerS host ∧ isPrivateHost "remoteok.com" = false
        ∧ ALLOWED_HOSTS.contains "remoteok.com" = true :=
  ⟨c10_host_gate_amended.1 "GET" "https:" "192.168.1.5" (by decide)
      (Or.inl rfl) (Or.inl (by decide)),
   c10_host_gate_amended.2.1 ⟨"GET", .parsed "https:" "remoteok.com"⟩
      "remoteok.com" (by decide)⟩

end Serverless

namespace Serverless

/-! ## OMDb handler evaluation lemmas -/

/-- The rate limiter admits the request: disabled, or strictly fewer
retained timestamps than the limit. -/
def rateAdmits (env : OmdbEnv) (st : OmdbState) (ip : String) : Prop :=
  rateEnabled env.rateLimit = true →
    ((pruneTimes env.now 60000 (lookupTimes st.rateMap ip)).length : Int) <
      env.rateLimit.getD 0

/-- The rate map after an admitted request. -/
def rateMapAfter (env : OmdbEnv) (st : OmdbState) (ip : String) :
    List (String × List Int) :=
  if rateEnabled env.rateLimit then
    setTimes st.rateMap ip
      (pruneTimes env.now 60000 (lookupTimes st.rateMap ip) ++ [env.now])
  else st.rateMap

/-- The rate map after a rejected request. -/
def rateMapReject (env : OmdbEnv) (st : OmdbState) (ip : String) :
    List (String × List Int) :=
  setTimes st.rateMap ip (pruneTimes env.now 60000 (lookupTimes st.rateMap ip))

/-- Closed form of the handler on an admitted `usage=1` GET request. -/
theorem omdbHandler_usage_eval (env : OmdbEnv) (st : OmdbState) (req : OmdbReq)
    (up : OmdbUpstream)
    (hm : req.method = "GET")
    (hsec : env.apiSecret = "" ∨ trimS req.xApiKey = env.apiSecret)
    (hrate : rateAdmits env st req.ip)
    (hu : req.usage = "1") :
    omdbHandler env st req up =
      (⟨200, .usageBody (usagePayloadOf env.today st.daily), none⟩,
       normSt env.today { st with rateMap := rateMapAfter env st req.ip }, 0) := by
  have hnm : ¬(req.method = "OPTIONS") := by rw [hm]; decide
  have hne : ¬(req.method ≠ "GET") := by simp [hm]
  have hsec2 : ¬(env.apiSecret ≠ "" ∧ trimS req.xApiKey ≠ env.apiSecret) := by
    rcases hsec with h | h <;> simp [h]
  by_cases hen : rateEnabled env.rateLimit = true
  · have hlt2 : ¬((env.rateLimit.getD 0 : Int) ≤
        ((pruneTimes env.now 60000 (lookupTimes st.rateMap req.ip)).length : Int)) := by
      simpa using not_le.mpr (hrate hen)
    simp [omdbHandler, if_neg hnm, if_neg hne, if_neg hsec2, hen, hlt2, hu,
      rateMapAfter, normSt]
  · simp only [Bool.not_eq_true] at hen
    simp [omdbHandler, if_neg hnm, if_neg hne, if_neg hsec2, hen, hu,
      rateMapAfter, normSt]

/-- Closed form of the handler on a rate-limited GET request. -/
theorem omdbHandler_rate429_eval (env : OmdbEnv) (st : OmdbState) (req : OmdbReq)
    (up : OmdbUpstream)
    (hm : req.method = "GET")
    (hsec : env.apiSecret = "" ∨ trimS req.xApiKey = env.apiSecret)
    (hen : rateEnabled env.rateLimit = true)
    (hge : (env.rateLimit.getD 0) ≤
      ((pruneTimes env.now 60000 (lookupTimes st.rateMap req.ip)).length : Int)) :
    omdbHandler env st req up =
      (⟨429, .errBody "Too many requests" (usagePayloadOf env.today st.daily), some "60"⟩,
       normSt env.today { st with rateMap := rateMapReject env st req.ip }, 0) := by
  have hnm : ¬(req.method = "OPTIONS") := by rw [hm]; decide
  have hne : ¬(req.method ≠ "GET") := by simp [hm]
  have hsec2 : ¬(env.apiSecret ≠ "" ∧ trimS req.xApiKey ≠ env.apiSecret) := by
    rcases hsec with h | h <;> simp [h]
  have hge2 : ((env.rateLimit.getD 0 : Int) ≤
      ((pruneTimes env.now 60000 (lookupTimes st.rateMap req.ip)).length : Int)) := by
    simpa using hge
  simp [omdbHandler, if_neg hnm, if_neg hne, if_neg hsec2, hen, hge2,
    rateMapReject, normSt]

end Serverless

namespace Serverless

/-! ## Claim C6 -/

/-- Rollover normalization is idempotent. -/
theorem normalizeDaily_idem (today : String) (d : Daily) :
    normalizeDaily today (normalizeDaily today d) = normalizeDaily today d := by
  by_cases h : d.date = today <;> simp [normalizeDaily, h]

/-- Counterexample environment: the stored daily pair is from the previous
UTC day. -/
def c6Env : OmdbEnv := ⟨"k", "", some 0, 1000, "2026-10-11"⟩

/-- Counterexample state: yesterday's counter holds 5. -/
def c6St : OmdbState := ⟨⟨"2026-10-10", 5⟩, ⟨[]⟩, []⟩

/-- A `usage=1` GET request. -/
def c6Req : OmdbReq := ⟨"GET", "1", "", "", "", "", "", "", "", "", "1.2.3.4"⟩

/-- Upstream oracle (never consulted on this request). -/
def c6Up : OmdbUpstream := ⟨.ok [], .ok none, .ok none⟩

/-- **C6 counterexample.** The first `usage=1` request of a new UTC day
returns 200 and calls no upstream, but the stored daily-counter state is
not the same afterwards: reading the counter performs the lazy midnight
rollover, replacing yesterday's `(date, 5)` with `(today, 0)`. -/
theorem c6_counterexample :
    ((omdbHandler c6Env c6St c6Req c6Up).1.status = 200)
    ∧ (omdbHandler c6Env c6St c6Req c6Up).2.2 = 0
    ∧ (omdbHandler c6Env c6St c6Req c6Up).2.1.daily ≠ c6St.daily
    ∧ c6St.daily.count = 5
    ∧ (omdbHandler c6Env c6St c6Req c6Up).2.1.daily.count = 0 := by decide

/-- **C6 (amended).** Every `usage=1` GET request that passes the key and
rate-limit gates returns the current daily counter with status 200, issues
no upstream call, and does not increment the daily counter: the stored
pair is only normalized by the lazy midnight-UTC rollover (which any read
performs), the counter's observable value is unchanged, and the stats
table is untouched. -/
theorem c6_usage_amended :
    ∀ env st req up,
      req.method = "GET" →
      (env.apiSecret = "" ∨ trimS req.xApiKey = env.apiSecret) →
      rateAdmits env st req.ip →
      req.usage = "1" →
      ((omdbHandler env st req up).1.status = 200
       ∧ (omdbHandler env st req up).1.body =
           .usageBody (usagePayloadOf env.today st.daily)
       ∧ (omdbHandler env st req up).2.2 = 0
       ∧ (omdbHandler env st req up).2.1.daily = normalizeDaily env.today st.daily
       ∧ usagePayloadOf env.today (omdbHandler env st req up).2.1.daily =
           usagePayloadOf env.today st.daily
       ∧ (omdbHandler env st req up).2.1.stats = st.stats) := by
  intro env st req up hm hsec hrate hu
  rw [omdbHandler_usage_eval env st req up hm hsec hrate hu]
  refine ⟨rfl, rfl, rfl, rfl, ?_, rfl⟩
  show usagePayloadOf env.today (normalizeDaily env.today st.daily) =
    usagePayloadOf env.today st.daily
  simp [usagePayloadOf, normalizeDaily_idem]

/-- Concrete instantiation of the amended C6 theorem. -/
theorem c6_amended_witness :
    (omdbHandler c6Env c6St c6Req c6Up).1.status = 200
    ∧ (omdbHandler c6Env c6St c6Req c6Up).2.2 = 0
    ∧ (omdbHandler c6Env c6St c6Req c6Up).2.1.stats = c6St.stats :=
  have h := c6_usage_amended c6Env c6St c6Req c6Up rfl (Or.inl rfl)
    (by intro hen; exact absurd hen (by decide)) rfl
  ⟨h.1, h.2.2.1, h.2.2.2.2.2⟩

end Serverless

namespace Serverless

/-! ## Claim C7 -/

/-- Looking up an ip just stored yields the stored array. -/
theorem lookupTimes_setTimes : ∀ (m : List (String × List Int)) (ip : String) (ts : List Int),
    lookupTimes (setTimes m ip ts) ip = ts
  | [], ip, ts => by simp [setTimes, lookupTimes]
  | e :: rest, ip, ts => by
    by_cases h : e.1 = ip
    · simp [setTimes, h, lookupTimes]
    · rw [setTimes, if_neg h, lookupTimes, List.find?_cons_of_neg _ (by simp [h])]
      have hrec := lookupTimes_setTimes rest ip ts
      rw [lookupTimes] at hrec
      exact hrec

/-- Environment of the C7 scenario: rate limit configured to 2, clock `t`. -/
def c7Env (t : Int) (today apiKey : String) : OmdbEnv := ⟨apiKey, "", some 2, t, today⟩

/-- The repeated request of the C7 scenario (`usage=1`, so the admitted
requests answer 200 without involving the key or daily-budget gates; the
rate gate runs before the usage branch). -/
def c7Req (ip : String) : OmdbReq := ⟨"GET", "1", "", "", "", "", "", "", "", "", ip⟩

/-- One request of the C7 scenario at clock `t` against state `st`. -/
def c7Step (apiKey today ip : String) (up : OmdbUpstream) (t : Int) (st : OmdbState) :
    OmdbResp × OmdbState × Nat :=
  omdbHandler (c7Env t today apiKey) st (c7Req ip) up

/-- **C7.** With `RATE_LIMIT_PER_MINUTE = 2` and a caller ip with no
recorded timestamps, two requests inside a 60-second window are admitted,
the third within that window is answered 429 with `Retry-After: 60` and no
upstream call, and the first request more than 60 seconds after the first
request is admitted again. -/
theorem c7_rate_limit_example :
    ∀ (apiKey today ip : String) (st0 : OmdbState) (up : OmdbUpstream) (t0 t1 t2 t3 : Int),
      lookupTimes st0.rateMap ip = [] →
      t0 ≤ t1 → t1 ≤ t2 →
      t2 < t0 + 60000 →
      t0 + 60000 < t3 →
      ((c7Step apiKey today ip up t0 st0).1.status = 200
       ∧ (c7Step apiKey today ip up t1 (c7Step apiKey today ip up t0 st0).2.1).1.status = 200
       ∧ (c7Step apiKey today ip up t2 (c7Step apiKey today ip up t1
            (c7Step apiKey today ip up t0 st0).2.1).2.1).1.status = 429
       ∧ (c7Step apiKey today ip up t2 (c7Step apiKey today ip up t1
            (c7Step apiKey today ip up t0 st0).2.1).2.1).1.retryAfter = some "60"
       ∧ (c7Step apiKey today ip up t2 (c7Step apiKey today ip up t1
            (c7Step apiKey today ip up t0 st0).2.1).2.1).2.2 = 0
       ∧ (c7Step apiKey today ip up t3 (c7Step apiKey today ip up t2
            (c7Step apiKey today ip up t1
              (c7Step apiKey today ip up t0 st0).2.1).2.1).2.1).1.status = 200) := by
  intro apiKey today ip st0 up t0 t1 t2 t3 hfresh h01 h12 h2w h3w
  have hp1 : pruneTimes t1 60000 [t0] = [t0] := by
    rw [pruneTimes, if_neg (by omega)]
  have hp2 : pruneTimes t2 60000 [t0, t1] = [t0, t1] := by
    rw [pruneTimes, if_neg (by omega)]
  have hp3 : (pruneTimes t3 60000 [t0, t1]).length ≤ 1 := by
    rw [pruneTimes, if_pos (by omega)]
    by_cases h : t1 < t3 - 60000
    · rw [pruneTimes, if_pos h]
      simp [pruneTimes]
    · rw [pruneTimes, if_neg h]
      simp
  -- Step 1: fresh caller, admitted; the stored array becomes [t0].
  have E1 : c7Step apiKey today ip up t0 st0 =
      (⟨200, .usageBody (usagePayloadOf today st0.daily), none⟩,
       normSt today { st0 with rateMap := setTimes st0.rateMap ip [t0] }, 0) := by
    rw [c7Step, omdbHandler_usage_eval _ _ _ _ rfl (Or.inl rfl)
      (by intro _; simp [c7Env, c7Req, hfresh, pruneTimes]) rfl]
    simp [rateMapAfter, c7Env, c7Req, rateEnabled, hfresh, pruneTimes]
  -- Step 2: [t0] survives the prune (t1 is inside t0's window); admitted.
  have E2 : c7Step apiKey today ip up t1
      (normSt today { st0 with rateMap := setTimes st0.rateMap ip [t0] }) =
      (⟨200, .usageBody (usagePayloadOf today (normalizeDaily today st0.daily)), none⟩,
       normSt today { normSt today { st0 with rateMap := setTimes st0.rateMap ip [t0] } with
         rateMap := setTimes (setTimes st0.rateMap ip [t0]) ip [t0, t1] }, 0) := by
    rw [c7Step, omdbHandler_usage_eval _ _ _ _ rfl (Or.inl rfl)
      (by intro _; simp [c7Env, c7Req, normSt, lookupTimes_setTimes, hp1]) rfl]
    simp [rateMapAfter, c7Env, c7Req, rateEnabled, normSt, lookupTimes_setTimes, hp1]
  -- Step 3: both timestamps survive the prune; the limit 2 is reached: 429.
  have E3 : c7Step apiKey today ip up t2
      (normSt today { normSt today { st0 with rateMap := setTimes st0.rateMap ip [t0] } with
        rateMap := setTimes (setTimes st0.rateMap ip [t0]) ip [t0, t1] }) =
      (⟨429, .errBody "Too many requests"
          (usagePayloadOf today (normalizeDaily today (normalizeDaily today st0.daily))), some "60"⟩,
       normSt today
         { normSt today { normSt today { st0 with rateMap := setTimes st0.rateMap ip [t0] } with
             rateMap := setTimes (setTimes st0.rateMap ip [t0]) ip [t0, t1] } with
           rateMap := setTimes (setTimes (setTimes st0.rateMap ip [t0]) ip [t0, t1]) ip [t0, t1] },
       0) := by
    rw [c7Step, omdbHandler_rate429_eval _ _ _ _ rfl (Or.inl rfl)
      (show rateEnabled (c7Env t2 today apiKey).rateLimit = true from rfl)
      (by simp [c7Env, c7Req, normSt, lookupTimes_setTimes, hp2])]
    simp [rateMapReject, c7Env, c7Req, normSt, lookupTimes_setTimes, hp2]
  -- Step 4: t0 has fallen out of the window; at most one timestamp remains.
  have E4 : (c7Step apiKey today ip up t3
      (normSt today
        { normSt today { normSt today { st0 with rateMap := setTimes st0.rateMap ip [t0] } with
            rateMap := setTimes (setTimes st0.rateMap ip [t0]) ip [t0, t1] } with
          rateMap := setTimes (setTimes (setTimes st0.rateMap ip [t0]) ip [t0, t1]) ip
            [t0, t1] })).1.status = 200 := by
    rw [c7Step, omdbHandler_usage_eval _ _ _ _ rfl (Or.inl rfl)
      (by
        intro _
        simp only [c7Env, c7Req, normSt, lookupTimes_setTimes]
        have hc : ((pruneTimes t3 60000 [t0, t1]).length : Int) ≤ 1 := by exact_mod_cast hp3
        simp only [Option.getD_some]
        omega) rfl]
  simp only [E1, E2, E3, E4]
  simp

end Serverless

namespace Serverless

/-- C7 witness state/oracle and the four chained requests. -/
def c7St0 : OmdbState := ⟨⟨"2026-10-11", 0⟩, ⟨[]⟩, []⟩

/-- C7 witness upstream oracle (never consulted). -/
def c7Up : OmdbUpstream := ⟨.ok [], .ok none, .ok none⟩

/-- First witness request (t = 0). -/
def c7w1 : OmdbResp × OmdbState × Nat := c7Step "k" "2026-10-11" "1.2.3.4" c7Up 0 c7St0

/-- Second witness request (t = 1000). -/
def c7w2 : OmdbResp × OmdbState × Nat :=
  c7Step "k" "2026-10-11" "1.2.3.4" c7Up 1000 c7w1.2.1

/-- Third witness request (t = 2000). -/
def c7w3 : OmdbResp × OmdbState × Nat :=
  c7Step "k" "2026-10-11" "1.2.3.4" c7Up 2000 c7w2.2.1

/-- Fourth witness request (t = 60001, past the first request's window). -/
def c7w4 : OmdbResp × OmdbState × Nat :=
  c7Step "k" "2026-10-11" "1.2.3.4" c7Up 60001 c7w3.2.1

/-- Concrete instantiation of the C7 theorem. -/
theorem c7_witness :
    c7w1.1.status = 200 ∧ c7w2.1.status = 200 ∧ c7w3.1.status = 429
    ∧ c7w3.1.retryAfter = some "60" ∧ c7w3.2.2 = 0 ∧ c7w4.1.status = 200 :=
  c7_rate_limit_example "k" "2026-10-11" "1.2.3.4" c7St0 c7Up 0 1000 2000 60001
    rfl (by decide) (by decide) (by decide) (by decide)

end Serverless

namespace Serverless

/-! ## Claim C8 -/

/-- **C8.** A GET request with a valid IMDb id (`i=tt1375666`) that reaches
the by-id branch (gates passed, no search/usage/stats parameter, key
configured, daily budget open) is answered with HTTP 200 and a body whose
`error` field is `"Not found"` whenever the upstream reply parses to `null`
or carries `Response: "False"` — never a 404 or 500. -/
theorem c8_not_found :
    ∀ env st req up,
      req.method = "GET" →
      (env.apiSecret = "" ∨ trimS req.xApiKey = env.apiSecret) →
      rateAdmits env st req.ip →
      req.usage ≠ "1" → req.statsQ ≠ "1" →
      env.apiKey ≠ "" →
      (normalizeDaily env.today st.daily).count < 1000 →
      trimS req.s = "" →
      trimS req.i = "tt1375666" →
      (up.detail = .ok none ∨ ∃ d, up.detail = .ok (some d) ∧ d.Response = "False") →
      ((omdbHandler env st req up).1.status = 200
       ∧ (omdbHandler env st req up).1.body.errorField = some "Not found") := by
  intro env st req up hm hsec hrate hu hst hk hd hs hi hup
  have hnm : ¬(req.method = "OPTIONS") := by rw [hm]; decide
  have hne : ¬(req.method ≠ "GET") := by simp [hm]
  have hsec2 : ¬(env.apiSecret ≠ "" ∧ trimS req.xApiKey ≠ env.apiSecret) := by
    rcases hsec with h | h <;> simp [h]
  have hd2 : ¬(1000 ≤ (normalizeDaily env.today st.daily).count) := not_le.mpr hd
  have hok : imdbIdOk "tt1375666" = true := by decide
  by_cases hen : rateEnabled env.rateLimit = true
  · have hlt2 : ¬((env.rateLimit.getD 0 : Int) ≤
        ((pruneTimes env.now 60000 (lookupTimes st.rateMap req.ip)).length : Int)) :=
      not_le.mpr (hrate hen)
    rcases hup with hup | ⟨d, hup, hresp⟩
    · simp [omdbHandler, hnm, hne, hsec2, hen, hlt2, hu, hst, hk, hd2, hs, hi, hok,
        hup, normSt, OmdbBody.errorField]
    · simp [omdbHandler, hnm, hne, hsec2, hen, hlt2, hu, hst, hk, hd2, hs, hi, hok,
        hup, hresp, normSt, OmdbBody.errorField]
  · simp only [Bool.not_eq_true] at hen
    rcases hup with hup | ⟨d, hup, hresp⟩
    · simp [omdbHandler, hnm, hne, hsec2, hen, hu, hst, hk, hd2, hs, hi, hok,
        hup, normSt, OmdbBody.errorField]
    · simp [omdbHandler, hnm, hne, hsec2, hen, hu, hst, hk, hd2, hs, hi, hok,
        hup, hresp, normSt, OmdbBody.errorField]

/-- C8 witness environment: key configured, limiter disabled. -/
def c8Env : OmdbEnv := ⟨"k", "", some 0, 1000, "2026-10-11"⟩

/-- C8 witness request: `i=tt1375666`. -/
def c8Req : OmdbReq := ⟨"GET", "", "", "", "tt1375666", "", "", "", "", "", "1.2.3.4"⟩

/-- C8 witness upstream: the by-id reply has `Response: "False"`. -/
def c8Up : OmdbUpstream :=
  ⟨.ok [], .ok (some ⟨"False", "", "", "", "", "", "", "", "", "", "", "", "", "",
    "", "", "", "", ""⟩), .ok none⟩

/-- Concrete instantiation of the C8 theorem. -/
theorem c8_witness :
    (omdbHandler c8Env c7St0 c8Req c8Up).1.status = 200
    ∧ (omdbHandler c8Env c7St0 c8Req c8Up).1.body.errorField = some "Not found" :=
  c8_not_found c8Env c7St0 c8Req c8Up rfl (Or.inl rfl)
    (by intro hen; exact absurd hen (by decide))
    (by decide) (by decide) (by decide) (by decide) (by decide) (by decide)
    (Or.inr ⟨_, rfl, rfl⟩)

end Serverless

namespace Serverless

/-! ## Claim C9 -/

/-- `normalizeJob` ignores the random draw when the raw id is non-empty
(as at every call site, where ids carry a non-empty literal prefix). -/
theorem normalizeJob_rand_irrel (env : Env) (r1 r2 : String) (j : RawJob)
    (h : j.id ≠ "") : normalizeJob env r1 j = normalizeJob env r2 j := by
  simp [normalizeJob, strOr_of_ne _ h]

/-- The RemoteOK loop never consumes a random draw. -/
theorem ingestROk_rng (env : Env) (r1 r2 : Nat → String) :
    ∀ (i : Nat) (l : List (Option ROkItem)),
      ingestROk env r1 i l = ingestROk env r2 i l
  | _, [] => rfl
  | i, none :: rest => by
    simp only [ingestROk]
    exact ingestROk_rng env r1 r2 (i + 1) rest
  | i, some it :: rest => by
    have ih := ingestROk_rng env r1 r2 (i + 1) rest
    simp only [ingestROk]
    split_ifs
    any_goals exact ih
    all_goals rw [List.cons_eq_cons]
    all_goals
      exact ⟨normalizeJob_rand_irrel env (r1 i) (r2 i) _
        (str_append_ne_left _ (by decide)), ih⟩

/-- The Remotive loop consumes a draw only for an item with a falsy id. -/
theorem ingestRemotive_rng (env : Env) (r1 r2 : Nat → String) :
    ∀ (i : Nat) (l : List (Option RemotiveItem)),
      (∀ o ∈ l, ∀ it, o = some it → it.id ≠ "") →
      ingestRemotive env r1 i l = ingestRemotive env r2 i l
  | _, [], _ => rfl
  | i, none :: rest, h => by
    simp only [ingestRemotive]
    exact ingestRemotive_rng env r1 r2 (i + 1) rest
      (fun o ho => h o (List.mem_cons_of_mem _ ho))
  | i, some it :: rest, h => by
    have hid : it.id ≠ "" := h (some it) (List.mem_cons_self _ _) it rfl
    have ih := ingestRemotive_rng env r1 r2 (i + 1) rest
      (fun o ho => h o (List.mem_cons_of_mem _ ho))
    simp only [ingestRemotive, strOr_of_ne _ hid]
    split_ifs
    any_goals exact ih
    all_goals rw [List.cons_eq_cons]
    all_goals
      exact ⟨normalizeJob_rand_irrel env (r1 i) (r2 i) _
        (str_append_ne_left _ (by decide)), ih⟩

/-- One RSS feed's loop never consumes a random draw (the link guard makes
the fallback dead). -/
theorem ingestRssItems_rng (env : Env) (r1 r2 : Nat → String) (src : String) :
    ∀ (i : Nat) (l : List (Option RssIt)),
      ingestRssItems env r1 src i l = ingestRssItems env r2 src i l
  | _, [] => rfl
  | i, none :: rest => by
    simp only [ingestRssItems]
    exact ingestRssItems_rng env r1 r2 src (i + 1) rest
  | i, some it :: rest => by
    have ih := ingestRssItems_rng env r1 r2 src (i + 1) rest
    simp only [ingestRssItems]
    by_cases h1 : it.title = "" ∨ it.link = ""
    · simp only [if_pos h1]
      exact ih
    · have hurl : it.link ≠ "" := fun hh => h1 (Or.inr hh)
      simp only [if_neg h1, strOr_of_ne _ hurl]
      split_ifs
      any_goals exact ih
      all_goals rw [List.cons_eq_cons]
      all_goals
        exact ⟨normalizeJob_rand_irrel env (r1 i) (r2 i) _
          (str_append_ne_left _ (str_append_ne_right src (by decide))), ih⟩

/-- All RSS feeds. -/
theorem ingestRssAll_rng (env : Env) (r1 r2 : Nat → String) :
    ∀ (l : List (String × List (Option RssIt))),
      ingestRssAll env r1 l = ingestRssAll env r2 l
  | [] => rfl
  | (src, items) :: rest => by
    simp only [ingestRssAll]
    rw [ingestRssItems_rng env r1 r2 src 0 items, ingestRssAll_rng env r1 r2 rest]

/-- The WorkingNomads loop never consumes a random draw. -/
theorem ingestWn_rng (env : Env) (r1 r2 : Nat → String) :
    ∀ (i : Nat) (l : List (Option WnItem)),
      ingestWn env r1 i l = ingestWn env r2 i l
  | _, [] => rfl
  | i, none :: rest => by
    simp only [ingestWn]
    exact ingestWn_rng env r1 r2 (i + 1) rest
  | i, some it :: rest => by
    have ih := ingestWn_rng env r1 r2 (i + 1) rest
    simp only [ingestWn]
    split_ifs
    any_goals exact ih
    all_goals rw [List.cons_eq_cons]
    all_goals
      exact ⟨normalizeJob_rand_irrel env (r1 i) (r2 i) _
        (str_append_ne_left _ (by decide)), ih⟩

/-- The WeWorkRemotely headless loop never consumes a random draw. -/
theorem ingestWwr_rng (env : Env) (r1 r2 : Nat → String) :
    ∀ (i : Nat) (l : List (Option SrcItem)),
      ingestWwr env r1 i l = ingestWwr env r2 i l
  | _, [] => rfl
  | i, none :: rest => by
    simp only [ingestWwr]
    exact ingestWwr_rng env r1 r2 (i + 1) rest
  | i, some it :: rest => by
    have ih := ingestWwr_rng env r1 r2 (i + 1) rest
    simp only [ingestWwr]
    by_cases h1 : it.title = "" ∨ it.url = ""
    · simp only [if_pos h1]
      exact ih
    · have hurl : it.url ≠ "" := fun hh => h1 (Or.inr hh)
      simp only [if_neg h1, strOr_of_ne _ hurl]
      split_ifs
      any_goals exact ih
      all_goals rw [List.cons_eq_cons]
      all_goals
        exact ⟨normalizeJob_rand_irrel env (r1 i) (r2 i) _
          (str_append_ne_left _ (by decide)), ih⟩

/-- The multi-site headless loop never consumes a random draw. -/
theorem ingestMulti_rng (env : Env) (r1 r2 : Nat → String) :
    ∀ (i : Nat) (l : List (Option SrcItem)),
      ingestMulti env r1 i l = ingestMulti env r2 i l
  | _, [] => rfl
  | i, none :: rest => by
    simp only [ingestMulti]
    exact ingestMulti_rng env r1 r2 (i + 1) rest
  | i, some it :: rest => by
    have ih := ingestMulti_rng env r1 r2 (i + 1) rest
    simp only [ingestMulti]
    by_cases h1 : it.title = "" ∨ it.url = ""
    · simp only [if_pos h1]
      exact ih
    · have hurl : it.url ≠ "" := fun hh => h1 (Or.inr hh)
      simp only [if_neg h1, strOr_of_ne _ hurl]
      split_ifs
      any_goals exact ih
      all_goals rw [List.cons_eq_cons]
      all_goals
        exact ⟨normalizeJob_rand_irrel env (r1 i) (r2 i) _
          (str_append_ne_left _ (str_append_ne_right _ (by decide))), ih⟩

/-- The Indeed headless loop never consumes a random draw. -/
theorem ingestIndeed_rng (env : Env) (r1 r2 : Nat → String) :
    ∀ (i : Nat) (l : List (Option SrcItem)),
      ingestIndeed env r1 i l = ingestIndeed env r2 i l
  | _, [] => rfl
  | i, none :: rest => by
    simp only [ingestIndeed]
    exact ingestIndeed_rng env r1 r2 (i + 1) rest
  | i, some it :: rest => by
    have ih := ingestIndeed_rng env r1 r2 (i + 1) rest
    simp only [ingestIndeed]
    by_cases h1 : it.title = "" ∨ it.url = ""
    · simp only [if_pos h1]
      exact ih
    · have hurl : it.url ≠ "" := fun hh => h1 (Or.inr hh)
      simp only [if_neg h1, strOr_of_ne _ hurl]
      split_ifs
      any_goals exact ih
      all_goals rw [List.cons_eq_cons]
      all_goals
        exact ⟨normalizeJob_rand_irrel env (r1 i) (r2 i) _
          (str_append_ne_left _ (by decide)), ih⟩

/-- The LinkedIn headless loop never consumes a random draw. -/
theorem ingestLinkedin_rng (env : Env) (r1 r2 : Nat → String) :
    ∀ (i : Nat) (l : List (Option SrcItem)),
      ingestLinkedin env r1 i l = ingestLinkedin env r2 i l
  | _, [] => rfl
  | i, none :: rest => by
    simp only [ingestLinkedin]
    exact ingestLinkedin_rng env r1 r2 (i + 1) rest
  | i, some it :: rest => by
    have ih := ingestLinkedin_rng env r1 r2 (i + 1) rest
    simp only [ingestLinkedin]
    by_cases h1 : it.title = "" ∨ it.url = ""
    · simp only [if_pos h1]
      exact ih
    · have hurl : it.url ≠ "" := fun hh => h1 (Or.inr hh)
      simp only [if_neg h1, strOr_of_ne _ hurl]
      split_ifs
      any_goals exact ih
      all_goals rw [List.cons_eq_cons]
      all_goals
        exact ⟨normalizeJob_rand_irrel env (r1 i) (r2 i) _
          (str_append_ne_left _ (by decide)), ih⟩

/-- The KV-cached loop never consumes a random draw. -/
theorem ingestCached_rng (env : Env) (r1 r2 : Nat → String) :
    ∀ (i : Nat) (l : List (Option SrcItem)),
      ingestCached env r1 i l = ingestCached env r2 i l
  | _, [] => rfl
  | i, none :: rest => by
    simp only [ingestCached]
    exact ingestCached_rng env r1 r2 (i + 1) rest
  | i, some it :: rest => by
    have ih := ingestCached_rng env r1 r2 (i + 1) rest
    simp only [ingestCached]
    by_cases h1 : it.title = "" ∨ it.url = ""
    · simp only [if_pos h1]
      exact ih
    · have hurl : it.url ≠ "" := fun hh => h1 (Or.inr hh)
      simp only [if_neg h1, strOr_of_ne _ hurl]
      split_ifs
      any_goals exact ih
      all_goals rw [List.cons_eq_cons]
      all_goals
        exact ⟨normalizeJob_rand_irrel env (r1 i) (r2 i) _
          (str_append_ne_left _ (str_append_ne_right _ (by decide))), ih⟩

end Serverless

namespace Serverless

/-- Counterexample inputs: one Remotive item with a falsy `id`. -/
def c9cInp : Part5Inputs :=
  ⟨[], some [some ⟨"", "Data Analyst", "Acme", "", "", "", "", "", none,
      .abs 1699999999000, .missing, "https://r.co/1"⟩],
   [], none, false, none, none, none, none, []⟩

/-- **C9 counterexample.** With identical source payloads, order and clock,
two runs differing only in the `Math.random()` stream produce different
responses: a Remotive record without an upstream `id` gets
`'remotive_' + Math.random()` as its listing id. -/
theorem c9_counterexample :
    ((snapshotResponse wEnv (fun _ => "0.111") wQuery c9cInp).jobs.map Job.id =
      ["remotive_0_111"])
    ∧ ((snapshotResponse wEnv (fun _ => "0.222") wQuery c9cInp).jobs.map Job.id =
      ["remotive_0_222"])
    ∧ snapshotResponse wEnv (fun _ => "0.111") wQuery c9cInp ≠
        snapshotResponse wEnv (fun _ => "0.222") wQuery c9cInp := by decide

/-- **C9 (amended).** The jobs-snapshot aggregator is deterministic in its
source payloads, their order, the clock, and the random stream; the random
stream is immaterial — two runs over the same payloads produce identical
responses — provided every Remotive record carries a truthy `id` (the one
live `Math.random()` fallback).  Independently of the random stream, when
several merged records share a `url`, the first-processed one is the one
kept by the dedup stage in every run. -/
theorem c9_deterministic_amended :
    (∀ env rng rng2 q inp,
      (∀ o ∈ (inp.remotiveJobs.getD []), ∀ it, o = some it → it.id ≠ "") →
      snapshotResponse env rng q inp = snapshotResponse env rng2 q inp)
    ∧ (∀ (l : List Job) j, j ∈ dedupe5 l →
        l.find? (fun x => x.url == j.url) = some j) := by
  constructor
  · intro env rng rng2 q inp hids
    have hb : buildJobs env rng inp = buildJobs env rng2 inp := by
      rw [buildJobs, buildJobs,
        ingestROk_rng env rng rng2 0 inp.remoteOkList,
        ingestRemotive_rng env rng rng2 0 ((inp.remotiveJobs.getD []).take 80)
          (fun o ho it he => hids o (List.mem_of_mem_take ho) it he),
        ingestRssAll_rng env rng rng2 inp.rss,
        ingestWn_rng env rng rng2 0 (inp.wn.getD []),
        ingestWwr_rng env rng rng2 0 (inp.wwr.getD []),
        ingestMulti_rng env rng rng2 0 (inp.multi.getD []),
        ingestIndeed_rng env rng rng2 0 (inp.indeed.getD []),
        ingestLinkedin_rng env rng rng2 0 (inp.linkedin.getD []),
        ingestCached_rng env rng rng2 0 inp.cachedHeadless]
    have hj : snapshotJobs env rng q inp = snapshotJobs env rng2 q inp := by
      rw [snapshotJobs, snapshotJobs, hb]
    rw [snapshotResponse, snapshotResponse, hj]
  · intro l j hj
    exact ((mem_dedupe5Aux [] l).mp hj).2.2

/-- Concrete instantiation of the amended C9 theorem: with the Remotive id
present, two different random streams give the same response; and the
dedup stage keeps the first record with each url. -/
theorem c9_amended_witness :
    snapshotResponse wEnv (fun _ => "0.111") wQuery wInp =
      snapshotResponse wEnv (fun _ => "0.222") wQuery wInp
    ∧ [c1wJobA, c1wJobB].find? (fun x => x.url == c1wJobA.url) = some c1wJobA :=
  ⟨c9_deterministic_amended.1 wEnv (fun _ => "0.111") (fun _ => "0.222") wQuery wInp
    (by decide),
   c9_deterministic_amended.2 [c1wJobA, c1wJobB] c1wJobA (by decide)⟩

end Serverless
